import Mathlib

/-!
Verification development for `fazer`, a differential fuzzer for
multi-objective MaxSAT solvers.

The development shallowly embeds the two core subsystems:

* the differential Pareto-front oracle (`src/eval.rs`): `check_relation`,
  `check_pf`, `compare_pfs` and `compare`;
* the structured instance generator (`src/generate.rs`): `MoGenerator`
  initialization, the clause/gadget constructors, and the streaming
  iterator.

Modelling conventions:

* Machine integers (`u8`, `u32`, `u64`, `usize`, `isize`) are modelled as
  `Nat`/`Int`.  Where overflow or underflow of an unsigned subtraction
  matters, a checked subtraction (`checkedSub`) makes the fault explicit.
* The ChaCha8 random source is modelled as a tape of naturals: each
  `gen_range`/`gen_bool` call consumes one tape entry (an exhausted tape
  yields 0).  The range draw maps the entry into the requested range and
  faults (like `rand`'s `gen_range`) on an empty range; the Boolean draw
  uses the entry's parity.  All Bernoulli probabilities in the source are
  strictly between 0 and 1, so every Boolean outcome is reachable and the
  tape abstraction covers exactly the code's possible behaviours.  Seeding
  (`ChaCha8Rng::seed_from_u64`) is a fixed pure function of the seed in
  the external `rand_chacha` crate, so a fixed seed corresponds to a fixed
  tape.
* Solver back-ends (the `scuttle` crate) are external: the oracle is
  modelled on the list of per-solver outcomes (a Pareto front, or a
  panic), which is all `compare` observes of them.  Likewise the instance
  model (`rustsat`'s `MultiOptInstance`) is external; the oracle only uses
  `n_objectives()` and `cost(sol)`, so it is modelled by that interface.
* Rust `panic!`/assert/debug-underflow terminations of the oracle are
  modelled as `none`; of the generator as `Except.error ()`.
-/

deriving instance DecidableEq for Except

namespace Fazer

/-! ## Data model (rustsat / scuttle side, external interface) -/

/-- Costs are vectors of `isize` values. -/
abbrev Costs := List Int

/-- Witness assignments are opaque to the oracle: it only ever hands them to
`MultiOptInstance::cost`.  We model them as tokens. -/
abbrev Assignment := Nat

/-- One entry of a `scuttle::types::ParetoFront`: a cost vector together
with the witness assignments reported for it. -/
structure NonDomPoint where
  costs : Costs
  sols : List Assignment
  deriving DecidableEq, Repr

/-- A `scuttle::types::ParetoFront`, in reported order. -/
abbrev PFront := List NonDomPoint

/-- The interface of `rustsat::instances::MultiOptInstance` that the oracle
uses: the number of objectives, and `cost`, which returns `none` when the
assignment violates a hard clause and the per-objective cost vector
otherwise. -/
structure MOInstance where
  nObjs : Nat
  cost : Assignment → Option Costs

/-- The problem taxonomy of `src/main.rs` (`enum Problem`). -/
inductive Problem where
  | Panic : Problem
  | UnsatSol : Nat → Nat → Problem
  | CostMismatch : Nat → Nat → Problem
  | Repeated : Nat → Nat → Problem
  | SelfDominated : Nat → Problem
  | OtherDominated : Nat → Problem
  | Short : Problem
  | WrongDimension : Nat → Problem
  deriving DecidableEq, Repr

/-! ## The oracle (`src/eval.rs`) -/

/-- `enum Relation` of `src/eval.rs`. -/
inductive Relation where
  | Incomparable | FirstDominates | SecondDominates | Equal
  deriving DecidableEq, Repr

/-- The folding loop of `check_relation`, over the zipped cost vectors. -/
def check_relation_go (dom : Relation) : List (Int × Int) → Relation
  | [] => dom
  | (c1, c2) :: rest =>
    if c1 < c2 then
      if dom = Relation.SecondDominates then Relation.Incomparable
      else check_relation_go Relation.FirstDominates rest
    else if c2 < c1 then
      if dom = Relation.FirstDominates then Relation.Incomparable
      else check_relation_go Relation.SecondDominates rest
    else check_relation_go dom rest

/-- `check_relation` of `src/eval.rs` (componentwise dominance check;
`iter().zip` truncates to the shorter vector). -/
def check_relation (c1 c2 : Costs) : Relation :=
  check_relation_go Relation.Equal (c1.zip c2)

/-- Checked `usize` subtraction: `none` models the debug-mode panic
("attempt to subtract with overflow"); in release mode the value wraps. -/
def checkedSub (a b : Nat) : Option Nat :=
  if b ≤ a then some (a - b) else none

/-- Solution-check inner loop of `check_pf`: for each witness of a point,
recompute the cost and compare. -/
def check_sols (inst : MOInstance) (costs : Costs) (ndomIdx : Nat) :
    List Assignment → Nat → Option Problem
  | [], _ => none
  | s :: rest, solIdx =>
    match inst.cost s with
    | some c =>
      if c ≠ costs then some (Problem.CostMismatch ndomIdx solIdx)
      else check_sols inst costs ndomIdx rest (solIdx + 1)
    | none => some (Problem.UnsatSol ndomIdx solIdx)

/-- Solution-check outer loop of `check_pf`: dimension check, then the
witnesses of each point, first failure wins. -/
def check_points (inst : MOInstance) : List NonDomPoint → Nat → Option Problem
  | [], _ => none
  | p :: rest, ndomIdx =>
    if p.costs.length ≠ inst.nObjs then some (Problem.WrongDimension ndomIdx)
    else
      match check_sols inst p.costs ndomIdx p.sols 0 with
      | some pr => some pr
      | none => check_points inst rest (ndomIdx + 1)

/-- Inner non-dominance loop of `check_pf` (`idx2 in idx1+1..pf.len()`). -/
def check_pair_inner (p : NonDomPoint) : List NonDomPoint → Nat → Nat → Option Problem
  | [], _, _ => none
  | q :: rest, idx1, idx2 =>
    match check_relation p.costs q.costs with
    | Relation.Incomparable => check_pair_inner p rest idx1 (idx2 + 1)
    | Relation.FirstDominates => some (Problem.SelfDominated idx2)
    | Relation.SecondDominates => some (Problem.SelfDominated idx1)
    | Relation.Equal => some (Problem.Repeated idx1 idx2)

/-- Outer non-dominance loop of `check_pf` (`idx1 in 0..pf.len()-1`);
structurally recursing over the list visits the same index pairs. -/
def check_pairs : List NonDomPoint → Nat → Option Problem
  | [], _ => none
  | p :: rest, idx1 =>
    match check_pair_inner p rest idx1 (idx1 + 1) with
    | some pr => some pr
    | none => check_pairs rest (idx1 + 1)

/-- Outcome of `check_pf`: clean, a classified problem, or a fault (the
loop bound `pf.len() - 1` underflowing `usize` on an empty front). -/
inductive CheckOutcome where
  | ok | problem (p : Problem) | fault
  deriving DecidableEq, Repr

/-- `check_pf` of `src/eval.rs`: solution checks, then the pairwise
non-dominance check whose loop bound is the `usize` expression
`pf.len() - 1`. -/
def check_pf (pf : PFront) (inst : MOInstance) : CheckOutcome :=
  match check_points inst pf 0 with
  | some pr => CheckOutcome.problem pr
  | none =>
    match checkedSub pf.length 1 with
    | none => CheckOutcome.fault
    | some _ =>
      match check_pairs pf 0 with
      | some pr => CheckOutcome.problem pr
      | none => CheckOutcome.ok

/-- What a dispatched solver produced: a Pareto front, or a caught panic
(`evaluate`'s `Result<ParetoFront, Problem>` where the error is always
`Problem::Panic`). -/
inductive SolverRes where
  | pf (front : PFront)
  | panicked
  deriving DecidableEq, Repr

/-- Result of scanning one point of a front against the joint
non-dominated rows (the `'ndoms` inner loop of `compare_pfs`): the point
was dominated by a row (drop the solver, keeping the row mutations made so
far), hit an equal row (skip the point), or finished the scan with its
append flag. -/
inductive ScanRes where
  | dom (rows : List Costs)
  | eq (rows : List Costs)
  | go (rows : List Costs) (append : Bool)

/-- One point `c` against the joint rows, mirroring the in-place mutation
of `non_dom_set`: `FirstDominates` overwrites the row with `c` and clears
the append flag, `SecondDominates` aborts (rows mutated so far persist),
`Equal` leaves the remaining rows untouched and skips the point. -/
def scan_rows (c : Costs) : List Costs → Bool → ScanRes
  | [], app => ScanRes.go [] app
  | r :: rest, app =>
    match check_relation c r with
    | Relation.Incomparable =>
      match scan_rows c rest app with
      | ScanRes.dom rs => ScanRes.dom (r :: rs)
      | ScanRes.eq rs => ScanRes.eq (r :: rs)
      | ScanRes.go rs a => ScanRes.go (r :: rs) a
    | Relation.FirstDominates =>
      match scan_rows c rest false with
      | ScanRes.dom rs => ScanRes.dom (c :: rs)
      | ScanRes.eq rs => ScanRes.eq (c :: rs)
      | ScanRes.go rs a => ScanRes.go (c :: rs) a
    | Relation.SecondDominates => ScanRes.dom (r :: rest)
    | Relation.Equal => ScanRes.eq (r :: rest)

/-- One point against the rows; `none` means the point was dominated by a
row (`OtherDominated` for this solver).  A point that was never overwritten
into a row nor equalled is appended. -/
def scan_point (c : Costs) (rows : List Costs) : Option (List Costs) × List Costs :=
  match scan_rows c rows true with
  | ScanRes.dom rs => (none, rs)
  | ScanRes.eq rs => (some rs, rs)
  | ScanRes.go rs app => (some (if app then rs ++ [c] else rs), rs)

/-- All points of one front against the rows, in order; on the first
dominated point the front's solver is dropped with that point's index. -/
def scan_front (pts : List NonDomPoint) (ndomIdx : Nat) (rows : List Costs) :
    Option Nat × List Costs :=
  match pts with
  | [] => (none, rows)
  | p :: rest =>
    match scan_point p.costs rows with
    | (none, rows') => (some ndomIdx, rows')
    | (some rows', _) => scan_front rest (ndomIdx + 1) rows'

/-- The `pfs.retain` pass building the joint non-dominated set: fronts in
order; a dropped front emits `OtherDominated` immediately; row mutations
persist across fronts. -/
def joint_scan : List (String × PFront) → List Costs →
    List (String × Problem) × List (String × PFront) × List Costs
  | [], rows => ([], [], rows)
  | (sid, pf) :: rest, rows =>
    match scan_front pf 0 rows with
    | (some idx, rows') =>
      let (ps, keep, r) := joint_scan rest rows'
      ((sid, Problem.OtherDominated idx) :: ps, keep, r)
    | (none, rows') =>
      let (ps, keep, r) := joint_scan rest rows'
      (ps, (sid, pf) :: keep, r)

/-- The quadratic duplicate-row sweep of `compare_pfs` (each row removes
its later duplicates); structural recursion on a fuel that the length of
the row list always covers, since `filter` never lengthens a list. -/
def dedup_rows_go : Nat → List Costs → List Costs
  | _, [] => []
  | 0, rows => rows
  | fuel + 1, r :: rest => r :: dedup_rows_go fuel (rest.filter (· ≠ r))

/-- The duplicate-row sweep of `compare_pfs`. -/
def dedup_rows (rows : List Costs) : List Costs :=
  dedup_rows_go rows.length rows

/-- Final cross-check of one front against the deduplicated joint rows:
`FirstDominates` is the `panic!("should never happen")` arm (`none`),
`SecondDominates` emits `OtherDominated` and stops this solver. -/
def final_point (c : Costs) : List Costs → Option (Option Unit)
  | [] => some none
  | r :: rest =>
    match check_relation c r with
    | Relation.Incomparable => final_point c rest
    | Relation.FirstDominates => none
    | Relation.SecondDominates => some (some ())
    | Relation.Equal => final_point c rest

/-- Final cross-check over the points of one front. -/
def final_front (pts : List NonDomPoint) (ndomIdx : Nat) (rows : List Costs) :
    Option (Option Nat) :=
  match pts with
  | [] => some none
  | p :: rest =>
    match final_point p.costs rows with
    | none => none
    | some (some _) => some (some ndomIdx)
    | some none => final_front rest (ndomIdx + 1) rows

/-- Final cross-check over all surviving fronts, emissions in front
order. -/
def final_checks (rows : List Costs) : List (String × PFront) →
    Option (List (String × Problem))
  | [] => some []
  | (sid, pf) :: rest =>
    match final_front pf 0 rows with
    | none => none
    | some (some idx) =>
      (final_checks rows rest).map ((sid, Problem.OtherDominated idx) :: ·)
    | some none => final_checks rows rest

/-- The length-filter stage of `compare_pfs`: fronts shorter than the
longest surviving front are reported `Short` and dropped. -/
def length_filter (pfs : List (String × PFront)) :
    List (String × Problem) × List (String × PFront) :=
  let maxLen := pfs.foldl (fun m p => max m p.2.length) 0
  ((pfs.filter (fun p => p.2.length ≠ maxLen)).map (fun p => (p.1, Problem.Short)),
   pfs.filter (fun p => p.2.length = maxLen))

/-- `compare_pfs` of `src/eval.rs` (sequential, i.e. `pool = None`).
`none` models a panic (the `assert!(!pfs.is_empty())` or the unreachable
`FirstDominates` arm of the final cross-check). -/
def compare_pfs (pfs : List (String × PFront)) (_nobjs : Nat) :
    Option (List (String × Problem)) :=
  let (shortProbs, pfs) := length_filter pfs
  if pfs.length ≤ 1 ∨ (pfs.headD ("", [])).2.isEmpty then some shortProbs
  else
    let seed := (pfs.headD ("", [])).2.map NonDomPoint.costs
    let (jointProbs, kept, rows) := joint_scan pfs seed
    if kept.length = 0 then none
    else if kept.length ≤ 1 then some (shortProbs ++ jointProbs)
    else
      (final_checks (dedup_rows rows) kept).map
        (fun fps => shortProbs ++ jointProbs ++ fps)

/-- The per-front self-check fan-in (`filter_pf` applied to each received
front in order): emitted problems and surviving fronts; `none` models the
`usize` underflow fault inside `check_pf`. -/
def self_check_fronts (inst : MOInstance) : List (String × PFront) →
    Option (List (String × Problem) × List (String × PFront))
  | [] => some ([], [])
  | (sid, pf) :: rest =>
    match check_pf pf inst with
    | CheckOutcome.fault => none
    | CheckOutcome.problem pr =>
      (self_check_fronts inst rest).map (fun r => ((sid, pr) :: r.1, r.2))
    | CheckOutcome.ok =>
      (self_check_fronts inst rest).map (fun r => (r.1, (sid, pf) :: r.2))

/-- `compare` of `src/eval.rs` as written, sequential (`pool = None`), on
the per-solver outcomes.  Line 87 calls the `async fn compare_pfs` without
`.await`: Rust futures are lazy, so the returned future — which owns the
last `tx_prob` sender — is dropped unpolled and the length filter, the
joint scan and the final cross-check never execute.  The problem channel
therefore collects only the dispatch panics and the self-check problems
sent from `filter_pf` (which is genuinely awaited); `none` models the
fault inside `check_pf`. -/
def compare (inst : MOInstance) (results : List (String × SolverRes)) :
    Option (List (String × Problem)) :=
  let panics := results.filterMap fun r =>
    match r.2 with
    | SolverRes.panicked => some (r.1, Problem.Panic)
    | SolverRes.pf _ => none
  let fronts := results.filterMap fun r =>
    match r.2 with
    | SolverRes.pf f => some (r.1, f)
    | SolverRes.panicked => none
  match self_check_fronts inst fronts with
  | none => none
  | some (filtProbs, _kept) => some (panics ++ filtProbs)

/-- The `compare` pipeline as the spec intends it (and as the surrounding
code was clearly meant to run): identical to `compare`, except that the
`compare_pfs` call at `eval.rs:87` is awaited, so its problems are
sequenced into the result after the panics and the self-check problems.
This is the spec-side definition used to state the divergence caused by
the missing `.await`. -/
def compare_spec (inst : MOInstance) (results : List (String × SolverRes)) :
    Option (List (String × Problem)) :=
  let panics := results.filterMap fun r =>
    match r.2 with
    | SolverRes.panicked => some (r.1, Problem.Panic)
    | SolverRes.pf _ => none
  let fronts := results.filterMap fun r =>
    match r.2 with
    | SolverRes.pf f => some (r.1, f)
    | SolverRes.panicked => none
  match self_check_fronts inst fronts with
  | none => none
  | some (filtProbs, kept) =>
    (compare_pfs kept inst.nObjs).map
      (fun ps => panics ++ filtProbs ++ ps)

/-! ### Concrete oracle scenarios (E4/E5 of the spec) -/

/-- An instance with two objectives and three distinguished assignments of
costs (1,3), (3,1) and (2,3); everything else is infeasible. -/
def instE4 : MOInstance where
  nObjs := 2
  cost := fun a =>
    match a with
    | 0 => some [1, 3]
    | 1 => some [3, 1]
    | 2 => some [2, 3]
    | _ => none

/-- The reference front {(1,3),(3,1)}. -/
def refFront : PFront := [⟨[1, 3], [0]⟩, ⟨[3, 1], [1]⟩]

/-- The buggy front {(2,3),(3,1)} of scenario E4. -/
def buggyFrontE4 : PFront := [⟨[2, 3], [2]⟩, ⟨[3, 1], [1]⟩]

/-- The buggy front {(1,3)} of scenario E5. -/
def buggyFrontE5 : PFront := [⟨[1, 3], [0]⟩]

/-- Claim C1 (code bug): on the oracle input where the reference solver
returns the valid front {(1,3),(3,1)} and the buggy solver returns the
valid front {(2,3),(3,1)}, the program's `compare` returns the empty
problem list in either iteration order — the `compare_pfs` future of
`eval.rs:87` is dropped without `.await`, so the cross-check that would
emit `OtherDominated` never runs — whereas the intended pipeline
(`compare_spec`, with the call awaited) returns exactly
`(buggy, OtherDominated(0))` as the claim demands. -/
theorem compare_e4_missing_await :
    compare instE4 [("ref", SolverRes.pf refFront), ("buggy", SolverRes.pf buggyFrontE4)] =
      some [] ∧
    compare instE4 [("buggy", SolverRes.pf buggyFrontE4), ("ref", SolverRes.pf refFront)] =
      some [] ∧
    compare_spec instE4 [("ref", SolverRes.pf refFront), ("buggy", SolverRes.pf buggyFrontE4)] =
      some [("buggy", Problem.OtherDominated 0)] ∧
    compare_spec instE4 [("buggy", SolverRes.pf buggyFrontE4), ("ref", SolverRes.pf refFront)] =
      some [("buggy", Problem.OtherDominated 0)] := by
  refine ⟨by decide, by decide, by decide, by decide⟩

/-- Claim C2 (code bug): on the oracle input where the reference solver
returns the valid front {(1,3),(3,1)} and the buggy solver returns the
valid front {(1,3)}, the program's `compare` returns the empty problem
list in either iteration order — `Short` is only ever emitted inside
`compare_pfs`, whose future `eval.rs:87` drops unpolled — whereas the
intended pipeline (`compare_spec`) reports exactly `(buggy, Short)`, with
the buggy front dropped by the length filter before any cross-check. -/
theorem compare_e5_missing_await :
    compare instE4 [("ref", SolverRes.pf refFront), ("buggy", SolverRes.pf buggyFrontE5)] =
      some [] ∧
    compare instE4 [("buggy", SolverRes.pf buggyFrontE5), ("ref", SolverRes.pf refFront)] =
      some [] ∧
    compare_spec instE4 [("ref", SolverRes.pf refFront), ("buggy", SolverRes.pf buggyFrontE5)] =
      some [("buggy", Problem.Short)] ∧
    compare_spec instE4 [("buggy", SolverRes.pf buggyFrontE5), ("ref", SolverRes.pf refFront)] =
      some [("buggy", Problem.Short)] ∧
    (length_filter [("ref", refFront), ("buggy", buggyFrontE5)]).2 = [("ref", refFront)] ∧
    (length_filter [("buggy", buggyFrontE5), ("ref", refFront)]).2 = [("ref", refFront)] := by
  refine ⟨by decide, by decide, by decide, by decide, by decide, by decide⟩

/-- Claim C7 (code bug): with a single solver returning the empty front,
the self-check's loop bound `pf.len() - 1` underflows `usize`
(`checkedSub 0 1 = none`), so `check_pf` faults and (under debug
assertions) `compare` panics instead of returning the empty problem list.
The fault sits inside `filter_pf`, which is genuinely awaited, so it hits
the program's `compare` as written and the intended `compare_spec`
alike. -/
theorem check_pf_empty_front_underflow :
    checkedSub (List.length ([] : PFront)) 1 = none ∧
    check_pf [] instE4 = CheckOutcome.fault ∧
    compare instE4 [("triv", SolverRes.pf [])] = none ∧
    compare_spec instE4 [("triv", SolverRes.pf [])] = none := by
  refine ⟨by decide, by decide, by decide, by decide⟩

/-- Claim C8: if exactly one solver is supplied and its returned front
passes the per-front self-check, `compare` returns the empty problem
list — both for the program as written (where `compare_pfs` never runs)
and for the intended awaited pipeline `compare_spec` (where `compare_pfs`
runs but a single surviving front yields no problem). -/
theorem compare_single_checked_solver (inst : MOInstance) (sid : String) (pf : PFront)
    (h : check_pf pf inst = CheckOutcome.ok) :
    compare inst [(sid, SolverRes.pf pf)] = some [] ∧
    compare_spec inst [(sid, SolverRes.pf pf)] = some [] := by
  constructor
  · simp [compare, List.filterMap, self_check_fronts, h]
  · simp only [compare_spec, List.filterMap, self_check_fronts, h, Option.map_some,
      compare_pfs, length_filter, List.foldl, Nat.zero_max]
    simp [List.filter]

/-- A one-objective instance whose only feasible assignment is token 0 at
cost 5. -/
def instC8 : MOInstance where
  nObjs := 1
  cost := fun a => if a = 0 then some [5] else none

/-- Witness for claim C8 at a concrete single-solver input. -/
theorem compare_single_checked_solver_witness :
    check_pf [⟨[5], [0]⟩] instC8 = CheckOutcome.ok ∧
    (compare instC8 [("s", SolverRes.pf [⟨[5], [0]⟩])] = some [] ∧
     compare_spec instC8 [("s", SolverRes.pf [⟨[5], [0]⟩])] = some []) :=
  ⟨by decide, compare_single_checked_solver instC8 "s" [⟨[5], [0]⟩] (by decide)⟩

/-! ## The generator (`src/generate.rs`) -/

/-- `rustsat::types::Lit`: `Lit::new(vidx, neg)`. -/
structure Lit where
  vidx : Nat
  neg : Bool
  deriving DecidableEq, Repr, Inhabited

/-- `!lit` on a `rustsat` literal flips its polarity. -/
def Lit.negate (l : Lit) : Lit := ⟨l.vidx, !l.neg⟩

/-- A clause is the ordered list of its literals (`Clause::add` pushes). -/
abbrev GClause := List Lit

/-- `type Cl = (Option<(u8, usize)>, Clause)`: an optional (objective,
weight) soft annotation and the clause. -/
abbrev GCl := Option (Nat × Nat) × GClause

/-- `struct Layer` of `src/generate.rs`; the half-open variable range is a
pair (lo, hi). -/
structure GLayer where
  range : Nat × Nat
  n_clauses : Nat
  soft : Nat
  unused : List Lit
  deriving DecidableEq, Repr

instance : Inhabited GLayer := ⟨⟨(0, 0), 0, 0, []⟩⟩

/-- `enum LineType`: the streaming cursor. -/
inductive LineType where
  | Header (id : Nat)
  | LayerDesc (idx : Nat)
  | LayerCl (lidx cidx : Nat)
  | EqCl (idx : Nat)
  | AndCl (idx : Nat)
  | Xor3Cl (idx : Nat)
  | Xor4Cl (idx : Nat)
  deriving DecidableEq, Repr

/-- The generator state, `struct MoGenerator` (the ChaCha8 rng is the
tape). -/
structure GenSt where
  rng : List Nat
  seed : Option Nat
  objs : Nat
  layers : List GLayer
  arity : List Nat
  soft : List Nat
  eqs : Nat
  ands : Nat
  xors3 : Nat
  xors4 : Nat
  n_soft_left : List Nat
  weight_range : Nat × Nat
  weight_sum : Nat
  state : LineType
  next_free_var : Nat
  buffer : List GCl
  deriving DecidableEq, Repr

/-- Field update `layer.unused := u` (spelled out constructor-first: the
term-level evaluator reduces explicit constructors far better than
structure-update sugar). -/
def GLayer.withUnused (l : GLayer) (u : List Lit) : GLayer :=
  ⟨l.range, l.n_clauses, l.soft, u⟩

/-- Field update `st.rng := t`. -/
def GenSt.withRng (st : GenSt) (t : List Nat) : GenSt :=
  ⟨t, st.seed, st.objs, st.layers, st.arity, st.soft, st.eqs, st.ands,
   st.xors3, st.xors4, st.n_soft_left, st.weight_range, st.weight_sum,
   st.state, st.next_free_var, st.buffer⟩

/-- Field update `st.rng := t; st.layers := ls`. -/
def GenSt.withRngLayers (st : GenSt) (t : List Nat) (ls : List GLayer) : GenSt :=
  ⟨t, st.seed, st.objs, ls, st.arity, st.soft, st.eqs, st.ands,
   st.xors3, st.xors4, st.n_soft_left, st.weight_range, st.weight_sum,
   st.state, st.next_free_var, st.buffer⟩

/-- Field update `st.state := s`. -/
def GenSt.withState (st : GenSt) (s : LineType) : GenSt :=
  ⟨st.rng, st.seed, st.objs, st.layers, st.arity, st.soft, st.eqs, st.ands,
   st.xors3, st.xors4, st.n_soft_left, st.weight_range, st.weight_sum,
   s, st.next_free_var, st.buffer⟩

/-- Field update `st.buffer := b; st.state := s`. -/
def GenSt.withBufferState (st : GenSt) (b : List GCl) (s : LineType) : GenSt :=
  ⟨st.rng, st.seed, st.objs, st.layers, st.arity, st.soft, st.eqs, st.ands,
   st.xors3, st.xors4, st.n_soft_left, st.weight_range, st.weight_sum,
   s, st.next_free_var, b⟩

/-- Field update `st.buffer := b`. -/
def GenSt.withBuffer (st : GenSt) (b : List GCl) : GenSt :=
  ⟨st.rng, st.seed, st.objs, st.layers, st.arity, st.soft, st.eqs, st.ands,
   st.xors3, st.xors4, st.n_soft_left, st.weight_range, st.weight_sum,
   st.state, st.next_free_var, b⟩

/-- Field update `st.next_free_var := n` (fresh blocking variable
allocation). -/
def GenSt.withNfv (st : GenSt) (n : Nat) : GenSt :=
  ⟨st.rng, st.seed, st.objs, st.layers, st.arity, st.soft, st.eqs, st.ands,
   st.xors3, st.xors4, st.n_soft_left, st.weight_range, st.weight_sum,
   st.state, n, st.buffer⟩

/-- Field update `st.rng := t; st.n_soft_left := nsl; st.weight_range :=
wr` (the state touched by `weight`). -/
def GenSt.withWeightDraw (st : GenSt) (t : List Nat) (nsl : List Nat)
    (wr : Nat × Nat) : GenSt :=
  ⟨t, st.seed, st.objs, st.layers, st.arity, st.soft, st.eqs, st.ands,
   st.xors3, st.xors4, nsl, wr, st.weight_sum,
   st.state, st.next_free_var, st.buffer⟩

/-- Field update `st.n_soft_left := nsl`. -/
def GenSt.withNSoftLeft (st : GenSt) (nsl : List Nat) : GenSt :=
  ⟨st.rng, st.seed, st.objs, st.layers, st.arity, st.soft, st.eqs, st.ands,
   st.xors3, st.xors4, nsl, st.weight_range, st.weight_sum,
   st.state, st.next_free_var, st.buffer⟩

/-- `MAX_CL_LEN` of `src/generate.rs`. -/
def MAX_CL_LEN : Nat := 20

/-- `u64::MAX`. -/
def UMAX : Nat := 2 ^ 64 - 1

/-- The random tape: one entry per rng call; an exhausted tape yields 0. -/
abbrev Tape := List Nat

/-- Consume one tape entry. -/
def drawTape : Tape → Nat × Tape
  | [] => (0, [])
  | n :: rest => (n, rest)

/-- `rng.gen_range(lo..=hi)` (inclusive): maps the tape entry into the
range; faults on an empty range like `rand`. -/
def genRangeIncl (lo hi : Nat) (t : Tape) : Except Unit (Nat × Tape) :=
  if hi < lo then Except.error ()
  else
    let (n, t') := drawTape t
    Except.ok (lo + n % (hi + 1 - lo), t')

/-- `rng.gen_range(lo..hi)` (half-open): faults on an empty range. -/
def genRangeExcl (lo hi : Nat) (t : Tape) : Except Unit (Nat × Tape) :=
  if hi ≤ lo then Except.error ()
  else
    let (n, t') := drawTape t
    Except.ok (lo + n % (hi - lo), t')

/-- `rng.gen_bool(p)`: the source only uses probabilities strictly between
0 and 1, so either outcome is reachable; the tape entry's parity selects
it. -/
def genBool (t : Tape) : Bool × Tape :=
  let (n, t') := drawTape t
  (n % 2 = 1, t')

/-- Read of the grow-on-demand `mark` vector (`mark.resize` +
`mark[vidx]` — reading past the end of the conceptual vector is
`false`). -/
def markGet : List Bool → Nat → Bool
  | [], _ => false
  | b :: _, 0 => b
  | _ :: m, v + 1 => markGet m v

/-- Write of the `mark` vector: resize with `false` up to `v + 1`, then
set index `v` to `true`. -/
def markSet : List Bool → Nat → List Bool
  | [], 0 => [true]
  | [], v + 1 => false :: markSet [] v
  | _ :: m, 0 => true :: m
  | b :: m, v + 1 => b :: markSet m v

/-- `Vec::swap_remove(i)`: return element `i`, move the last element into
its place (callers always pass an in-bounds index). -/
def swapRemove [Inhabited α] (xs : List α) (i : Nat) : α × List α :=
  (xs.getD i default, (xs.set i (xs.getLastD default)).dropLast)

/-- The layer-width configuration of `src/config.rs` /
`src/generate.rs`. -/
inductive LayerType where
  | Tiny | Small | Regular
  deriving DecidableEq, Repr

/-- The generator configuration as `MoGenerator::init` consumes it
(`InstConfig` with `objs() = min_objs..=max_objs` and
`layers() = min_layers..=max_layers`). -/
structure InstConfig where
  seed : Option Nat
  min_objs : Nat
  max_objs : Nat
  min_layers : Nat
  max_layers : Nat
  layer_type : LayerType
  deriving DecidableEq, Repr

/-- Lower bound of the per-layer width draw (`Tiny => 5..=max_width`,
otherwise `10..=max_width`). -/
def widthLo (lt : LayerType) : Nat :=
  match lt with
  | LayerType.Tiny => 5
  | _ => 10

/-- The `unused` literal pool of a layer: both polarities of every
variable in the range, in range order. -/
def mkUnused (lo hi : Nat) : List Lit :=
  (List.range (hi - lo)).flatMap fun i => [⟨lo + i, false⟩, ⟨lo + i, true⟩]

/-- One iteration of the layer-construction loop of `init` (lines 76-108
of `src/generate.rs`); `objs` is `self.objs`, still 0 at this point since
the objective count is drawn only after the layers. -/
def mkLayer (lt : LayerType) (max_width objs : Nat) (prev : Option GLayer) (t : Tape) :
    Except Unit (GLayer × Tape) := do
  let (width, t) ← genRangeIncl (widthLo lt) max_width t
  let range :=
    match prev with
    | some p => (p.range.2, p.range.2 + width + 1)
    | none => (0, width + 1)
  let width_plus_last :=
    match prev with
    | some p => width + p.range.2 - p.range.1
    | none => width
  let (sample, t) ← genRangeIncl 100 250 t
  let n_cl := sample * width_plus_last / 100
  let (soft, t) ←
    if n_cl > 4 * width_plus_last then genRangeIncl 1 objs t
    else Except.ok (0, t)
  Except.ok ({ range := range, n_clauses := n_cl, soft := soft,
               unused := mkUnused range.1 range.2 }, t)

/-- The layer-construction loop of `init`. -/
def mkLayers (lt : LayerType) (max_width objs : Nat) (n : Nat) (prev : Option GLayer)
    (t : Tape) : Except Unit (List GLayer × Tape) :=
  match n with
  | 0 => Except.ok ([], t)
  | n + 1 => do
    let (l, t) ← mkLayer lt max_width objs prev t
    let (ls, t) ← mkLayers lt max_width objs n (some l) t
    Except.ok (l :: ls, t)

/-- The weight-range draw of `init` (lines 123-135). -/
def draw_weight_range (t : Tape) : Except Unit ((Nat × Nat) × Tape) := do
  let (v, t) ← genRangeIncl 1 5 t
  match v with
  | 1 => Except.ok ((1, 2), t)
  | 2 => do
    let (x, t) ← genRangeIncl 3 33 t
    Except.ok ((1, x), t)
  | 3 => do
    let (x, t) ← genRangeIncl 34 257 t
    Except.ok ((1, x), t)
  | 4 => do
    let (x, t) ← genRangeIncl 258 65536 t
    Except.ok ((1, x), t)
  | _ => do
    let (b, t) := genBool t
    if b then do
      let (x, t) ← genRangeExcl (2 ^ 32 + 1) (2 ^ 63) t
      Except.ok ((1, x), t)
    else do
      let (x, t) ← genRangeIncl 65537 (2 ^ 32 + 1) t
      Except.ok ((1, x), t)

/-- Length of a layer's variable range. -/
def layerLen (l : GLayer) : Nat := l.range.2 - l.range.1

/-- `width_plus_last` of the arity computation (lines 137-144): the
combined width of the last two layers (or of the single layer); indexing
an empty layer list is a panic. -/
def arity_wpl (layers : List GLayer) : Except Unit Nat :=
  if 1 < layers.length then
    Except.ok (layerLen (layers.getD (layers.length - 1) default) +
               layerLen (layers.getD (layers.length - 2) default))
  else
    match layers with
    | [] => Except.error ()
    | l :: _ => Except.ok (layerLen l)

/-- The per-AND arity draws (lines 146-148). -/
def mkArities (n max_arity : Nat) (t : Tape) : Except Unit (List Nat × Tape) :=
  match n with
  | 0 => Except.ok ([], t)
  | n + 1 => do
    let (a, t) ← genRangeIncl 2 max_arity t
    let (rest, t) ← mkArities n max_arity t
    Except.ok (a :: rest, t)

/-- The per-gadget softness draws (lines 151-157): when `all_soft` holds,
the Bernoulli draw is short-circuited away. -/
def mkSoftTable (objs : Nat) (all_soft : Bool) (n : Nat) (t : Tape) :
    Except Unit (List Nat × Tape) :=
  match n with
  | 0 => Except.ok ([], t)
  | n + 1 => do
    let (s, t) ←
      if all_soft then genRangeIncl 1 objs t
      else
        let (b, t) := genBool t
        if b then genRangeIncl 1 objs t else Except.ok (0, t)
    let (rest, t) ← mkSoftTable objs all_soft n t
    Except.ok (s :: rest, t)

/-- `self.layers[self.layers.len() - 1].range.end`; indexing an empty
vector is a panic. -/
def lastLayerEnd : List GLayer → Except Unit Nat
  | [] => Except.error ()
  | [l] => Except.ok l.range.2
  | _ :: rest => lastLayerEnd rest

/-- `cnt[i] += 1` on the per-objective counter vector (in the source an
out-of-range objective index would panic; soft indices are always drawn
from `1..=objs`). -/
def inc_at (c : List Nat) (i : Nat) : List Nat := c.set i (c.getD i 0 + 1)

/-- `MoGenerator::n_softs`. -/
def n_softs (st : GenSt) : List Nat :=
  let cnt := st.layers.foldl
    (fun c l => if l.soft > 0 then inc_at c (l.soft - 1) else c)
    (List.replicate st.objs 0)
  st.soft.foldl (fun c s => if s > 0 then inc_at c (s - 1) else c) cnt

/-- `MoGenerator::n_clauses`: the total clause count printed in the
header. -/
def n_clauses (st : GenSt) : Nat :=
  let n := st.layers.foldl (fun cnt l => cnt + l.n_clauses) 0
  let n := st.arity.foldl (fun cnt a => cnt + a + 1) n
  let n := st.soft.foldl (fun cnt s => if s > 0 then cnt + 1 else cnt) n
  n + 2 * st.eqs + 4 * st.xors3 + 8 * st.xors4

/-- The `max_width` draw range per layer type (lines 70-74). -/
def width_bounds (lt : LayerType) : Nat × Nat :=
  match lt with
  | LayerType.Tiny => (5, 10)
  | LayerType.Small => (10, 20)
  | LayerType.Regular => (10, 70)

/-- A Bernoulli-gated gadget count (lines 110-121): zero unless the gate
fires, else drawn from `0..=hi`. -/
def gadget_count (t : Tape) (hi : Nat) : Except Unit (Nat × Tape) :=
  let (b, t) := genBool t
  if b then genRangeIncl 0 hi t else Except.ok (0, t)

/-- `MoGenerator::new` + `init` (lines 41-160): the full initialization.
The rng seeding itself (`ChaCha8Rng::seed_from_u64`) lives in the external
`rand_chacha` crate; the tape stands for the seeded stream. -/
def init (cfg : InstConfig) (tape : Tape) : Except Unit GenSt := do
  let (mwLo, mwHi) := width_bounds cfg.layer_type
  let (max_width, t) ← genRangeIncl mwLo mwHi tape
  let (nLayers, t) ← genRangeIncl cfg.min_layers cfg.max_layers t
  let (layers, t) ← mkLayers cfg.layer_type max_width 0 nLayers none t
  let (eqs, t) ← gadget_count t 31
  let (ands, t) ← gadget_count t 31
  let (xors3, t) ← gadget_count t 16
  let (xors4, t) ← gadget_count t 12
  let (objs, t) ← genRangeIncl cfg.min_objs cfg.max_objs t
  let (wr, t) ← draw_weight_range t
  let wpl ← arity_wpl layers
  let max_arity := min MAX_CL_LEN (wpl / 2)
  let (arity, t) ← mkArities ands max_arity t
  let nGadgets := ands + eqs + xors3 + xors4
  let (soft, t) ←
    if objs > 0 then do
      let (all_soft, t) := genBool t
      mkSoftTable objs all_soft nGadgets t
    else Except.ok (List.replicate nGadgets 0, t)
  let nfv ← lastLayerEnd layers
  let st : GenSt :=
    { rng := t, seed := cfg.seed, objs := objs, layers := layers,
      arity := arity, soft := soft, eqs := eqs, ands := ands,
      xors3 := xors3, xors4 := xors4, n_soft_left := [],
      weight_range := wr, weight_sum := 0, state := LineType.Header 0,
      next_free_var := nfv, buffer := [] }
  Except.ok (st.withNSoftLeft (n_softs st))

/-- `MoGenerator::weight` (lines 193-206): decrement the per-objective
remaining-soft counter (a `usize` subtraction: faults at 0), draw from the
current weight range, clamp against `u64::MAX`.  Note: `weight_sum` is
read but never written. -/
def weight (st : GenSt) (oidx : Nat) : Except Unit (Nat × GenSt) := do
  if st.n_soft_left.getD oidx 0 = 0 then Except.error ()
  else
    let nsl := st.n_soft_left.set oidx (st.n_soft_left.getD oidx 0 - 1)
    let (w, t) ← genRangeExcl st.weight_range.1 st.weight_range.2 st.rng
    if w + nsl.getD oidx 0 ≥ UMAX - st.weight_sum then
      Except.ok ((UMAX - 1) - st.weight_sum - nsl.getD oidx 0,
        st.withWeightDraw t nsl (1, 2))
    else
      Except.ok (w, st.withWeightDraw t nsl st.weight_range)

/-- The clause-length growth loop of `layer_clause` (`while len < 20 &&
len < range.end && gen_bool(2/3)`); the budget `MAX_CL_LEN - len` bounds
the iterations exactly, since each one requires `len < 20`. -/
def growLenGo (budget len layerEnd : Nat) (t : Tape) : Nat × Tape :=
  match budget with
  | 0 => (len, t)
  | budget + 1 =>
    if len < MAX_CL_LEN ∧ len < layerEnd then
      let (b, t') := genBool t
      if b then growLenGo budget (len + 1) layerEnd t' else (len, t')
    else (len, t)

/-- Clause-length draw starting from 3. -/
def growLen (len layerEnd : Nat) (t : Tape) : Nat × Tape :=
  growLenGo (MAX_CL_LEN - len) len layerEnd t

/-- The random downward layer walk (`while l > 0 && gen_bool(0.5)`). -/
def walkDown (l : Nat) (t : Tape) : Nat × Tape :=
  match l with
  | 0 => (0, t)
  | l + 1 =>
    let (b, t') := genBool t
    if b then walkDown l t' else (l + 1, t')

/-- Total size of all unused pools (used to size the literal-loop
fuel). -/
def totalUnused (layers : List GLayer) : Nat :=
  layers.foldl (fun n l => n + l.unused.length) 0

/-- The literal pick of `layer_clause` (lines 262-271): pop a uniformly
chosen entry of the chosen layer's unused pool if it is non-empty, else
draw a random variable of the layer and a random polarity. -/
def pick_lit (layers : List GLayer) (l : Nat) (t : Tape) :
    Except Unit (Lit × List GLayer × Tape) :=
  let layer := layers.getD l default
  if layer.unused.isEmpty then do
    let (v, t) ← genRangeExcl layer.range.1 layer.range.2 t
    let (b, t) := genBool t
    Except.ok ((⟨v, b⟩ : Lit), layers, t)
  else do
    let (i, t) ← genRangeExcl 0 layer.unused.length t
    let (lit, unused') := swapRemove layer.unused i
    Except.ok (lit, layers.set l (layer.withUnused unused'), t)

/-- The literal-filling loop of `layer_clause` (lines 255-281): pick an
origin layer by downward walk, pick a literal, retry on a marked
variable.  The retry loop is unbounded in the source (it diverges when the
tape is exhausted on a marked draw); every terminating execution makes
progress by consuming a tape entry, shrinking an unused pool, or filling a
slot, so the caller's fuel `rng.length + totalUnused + len + 1` never cuts
a terminating run short — fuel exhaustion models divergence. -/
def fillLits (st : GenSt) (lidx len idx : Nat) (mark : List Bool) (cl : GClause)
    (fuel : Nat) : Except Unit (GClause × GenSt) :=
  if idx < len then
    match fuel with
    | 0 => Except.error ()
    | fuel + 1 => do
      let (l, t) := walkDown lidx st.rng
      let (lit, layers', t) ← pick_lit st.layers l t
      let st' := st.withRngLayers t layers'
      if markGet mark lit.vidx then fillLits st' lidx len idx mark cl fuel
      else fillLits st' lidx len (idx + 1) (markSet mark lit.vidx) (cl ++ [lit]) fuel
  else Except.ok (cl, st)

/-- The soft-weight attachment of `layer_clause` (lines 248-252): a soft
layer draws a weight on its objective, a hard layer attaches nothing. -/
def layer_weight (st : GenSt) (soft : Nat) : Except Unit (Option (Nat × Nat) × GenSt) :=
  if soft > 0 then do
    let (w, st') ← weight st (soft - 1)
    Except.ok (some (soft - 1, w), st')
  else Except.ok (none, st)

/-- `MoGenerator::layer_clause` (lines 237-283). -/
def layer_clause (st : GenSt) (lidx : Nat) : Except Unit (GCl × GenSt) := do
  let layer0 := st.layers.getD lidx default
  let (len, t) := growLen 3 layer0.range.2 st.rng
  let st := st.withRng t
  let (wt, st) ← layer_weight st layer0.soft
  let (cl, st) ← fillLits st lidx len 0 [] []
    (st.rng.length + totalUnused st.layers + len + 1)
  Except.ok ((wt, cl), st)

/-- The variable draws of `eq_clauses` (lines 287-290): two random
layers, one random variable in each. -/
def eq_draw (st : GenSt) : Except Unit ((Nat × Nat) × Tape) := do
  let (l1, t) ← genRangeExcl 0 st.layers.length st.rng
  let (l2, t) ← genRangeExcl 0 st.layers.length t
  let (v1, t) ← genRangeExcl (st.layers.getD l1 default).range.1
    (st.layers.getD l1 default).range.2 t
  let (v2, t) ← genRangeExcl (st.layers.getD l2 default).range.1
    (st.layers.getD l2 default).range.2 t
  Except.ok ((v1, v2), t)

/-- The emission part of `eq_clauses` (lines 294-310), after the
distinct-variable retry has succeeded. -/
def eq_finish (st : GenSt) (idx v1 v2 : Nat) (t : Tape) :
    Except Unit (List GCl × GenSt) := do
  let (b1, t) := genBool t
  let (b2, t) := genBool t
  let lit1 : Lit := ⟨v1, b1⟩
  let lit2 : Lit := ⟨v2, b2⟩
  let st := st.withRng t
  let s := st.soft.getD idx 0
  if s > 0 then do
    let blit : Lit := ⟨st.next_free_var, false⟩
    let st := st.withNfv (st.next_free_var + 1)
    let (w, st) ← weight st (s - 1)
    Except.ok ([(none, [blit, lit1, lit2]),
                (none, [blit, lit1.negate, lit2.negate]),
                (some (s - 1, w), [blit.negate])], st)
  else
    Except.ok ([((none : Option (Nat × Nat)), [lit1, lit2]),
                (none, [lit1.negate, lit2.negate])], st)

/-- `MoGenerator::eq_clauses` (lines 285-311); the `v1 == v2` retry is a
recursive call in the source, fuelled here (`rng.length + 2` covers every
terminating run: each retry consumes tape entries, and with an exhausted
tape the draws are fixed, so one further round decides). -/
def eq_clauses (st : GenSt) (idx : Nat) : Nat → Except Unit (List GCl × GenSt)
  | 0 => Except.error ()
  | fuel + 1 => do
    let ((v1, v2), t) ← eq_draw st
    if v1 = v2 then eq_clauses (st.withRng t) idx fuel
    else eq_finish st idx v1 v2 t

/-- A random literal from a random layer (the lhs/rhs draw pattern of
`and_clauses` and the XOR gadgets): a random layer, a random variable in
its range, a random polarity. -/
def rand_lit (layers : List GLayer) (t : Tape) : Except Unit (Lit × Tape) := do
  let (l, t) ← genRangeExcl 0 layers.length t
  let (v, t) ← genRangeExcl (layers.getD l default).range.1
    (layers.getD l default).range.2 t
  let (b, t) := genBool t
  Except.ok ((⟨v, b⟩ : Lit), t)

/-- The rhs-literal loop of `and_clauses` (lines 325-341), with the same
mark-retry discipline and fuel convention as `fillLits`. -/
def and_rhs (layers : List GLayer) (arity lidx : Nat) (mark : List Bool) (cl : GClause)
    (t : Tape) (fuel : Nat) : Except Unit (GClause × Tape) :=
  if lidx < arity then
    match fuel with
    | 0 => Except.error ()
    | fuel + 1 => do
      let (rhs, t) ← rand_lit layers t
      if markGet mark rhs.vidx then and_rhs layers arity lidx mark cl t fuel
      else and_rhs layers arity (lidx + 1) (markSet mark rhs.vidx) (cl ++ [rhs]) t fuel
  else Except.ok (cl, t)

/-- `MoGenerator::and_clauses` (lines 313-359).  In the soft branch the
source appends the blocking literal to `cl` and then drains
`cl.drain(1..cl.len())` — every literal but the lhs, the blocker
included — into binary clauses. -/
def and_clauses (st : GenSt) (idx : Nat) : Except Unit (List GCl × GenSt) := do
  let (lhs, t) ← rand_lit st.layers st.rng
  let mark := markSet [] lhs.vidx
  let arity := st.arity.getD idx 0
  let (cl, t) ← and_rhs st.layers arity 0 mark [lhs] t (t.length + arity + 1)
  let sidx := st.eqs + idx
  let s := st.soft.getD sidx 0
  if s > 0 then do
    let blit : Lit := ⟨st.next_free_var, false⟩
    let st := (st.withRng t).withNfv (st.next_free_var + 1)
    let cl := cl ++ [blit]
    let (w, st) ← weight st (s - 1)
    Except.ok ((none, cl) ::
      (cl.tail.map (fun r => ((none : Option (Nat × Nat)), [lhs.negate, r.negate])) ++
       [(some (s - 1, w), [blit.negate])]), st)
  else
    Except.ok ((none, cl) ::
      cl.tail.map (fun r => ((none : Option (Nat × Nat)), [lhs.negate, r.negate])),
      st.withRng t)

/-- The literal draws of the XOR gadgets (lines 364-370 / 398-404): a
random layer, a random variable in it, a random polarity — with no
mark-retry, so drawn variables may coincide. -/
def draw_lits (layers : List GLayer) (n : Nat) (t : Tape) :
    Except Unit (List Lit × Tape) :=
  match n with
  | 0 => Except.ok ([], t)
  | n + 1 => do
    let (lit, t) ← rand_lit layers t
    let (rest, t) ← draw_lits layers n t
    Except.ok (lit :: rest, t)

/-- `MoGenerator::xor3_clauses` (lines 361-393). -/
def xor3_clauses (st : GenSt) (idx : Nat) : Except Unit (List GCl × GenSt) := do
  let (lits, t) ← draw_lits st.layers 3 st.rng
  let l0 := lits.getD 0 default
  let l1 := lits.getD 1 default
  let l2 := lits.getD 2 default
  let sidx := st.eqs + st.ands + idx
  let s := st.soft.getD sidx 0
  if s > 0 then do
    let blit : Lit := ⟨st.next_free_var, false⟩
    let st := (st.withRng t).withNfv (st.next_free_var + 1)
    let (w, st) ← weight st (s - 1)
    Except.ok ([(none, [blit, l0, l1, l2]),
                (none, [blit, l0, l1.negate, l2.negate]),
                (none, [blit, l0.negate, l1, l2.negate]),
                (none, [blit, l0.negate, l1.negate, l2]),
                (some (s - 1, w), [blit.negate])], st)
  else
    Except.ok ([((none : Option (Nat × Nat)), [l0, l1, l2]),
                (none, [l0, l1.negate, l2.negate]),
                (none, [l0.negate, l1, l2.negate]),
                (none, [l0.negate, l1.negate, l2])], st.withRng t)

/-- `MoGenerator::xor4_clauses` (lines 395-431).  The hard branch is
embedded exactly as written in the source: it emits only the four
three-literal clauses over `lits[0..=2]` (the XOR3 pattern), not an
eight-clause 4-parity. -/
def xor4_clauses (st : GenSt) (idx : Nat) : Except Unit (List GCl × GenSt) := do
  let (lits, t) ← draw_lits st.layers 4 st.rng
  let l0 := lits.getD 0 default
  let l1 := lits.getD 1 default
  let l2 := lits.getD 2 default
  let l3 := lits.getD 3 default
  let sidx := st.eqs + st.ands + st.xors3 + idx
  let s := st.soft.getD sidx 0
  if s > 0 then do
    let blit : Lit := ⟨st.next_free_var, false⟩
    let st := (st.withRng t).withNfv (st.next_free_var + 1)
    let (w, st) ← weight st (s - 1)
    Except.ok ([(none, [blit, l0, l1, l2, l3]),
                (none, [blit, l0, l1, l2.negate, l3.negate]),
                (none, [blit, l0, l1.negate, l2, l3.negate]),
                (none, [blit, l0, l1.negate, l2.negate, l3]),
                (none, [blit, l0.negate, l1, l2, l3.negate]),
                (none, [blit, l0.negate, l1, l2.negate, l3]),
                (none, [blit, l0.negate, l1.negate, l2, l3]),
                (none, [blit, l0.negate, l1.negate, l2.negate, l3.negate]),
                (some (s - 1, w), [blit.negate])], st)
  else
    Except.ok ([((none : Option (Nat × Nat)), [l0, l1, l2]),
                (none, [l0, l1.negate, l2.negate]),
                (none, [l0.negate, l1, l2.negate]),
                (none, [l0.negate, l1.negate, l2])], st.withRng t)

/-- Structured content of the generator's comment lines (the byte
formatting is owned by the external serializer). -/
inductive CommentData where
  | genBy
  | seedInfo (s : Option Nat)
  | objectives (n : Nat)
  | weightRange (lo hi : Nat)
  | clauses (n : Nat)
  | softClauses (ns : List Nat)
  | eqsCount (n : Nat)
  | andsCount (n : Nat)
  | xors3Count (n : Nat)
  | xors4Count (n : Nat)
  | layerDesc (idx lo hi nCl : Nat)
  deriving DecidableEq, Repr

/-- `rustsat::instances::fio::dimacs::McnfLine`. -/
inductive McnfLine where
  | comment (c : CommentData)
  | hard (c : GClause)
  | soft (c : GClause) (w : Nat) (o : Nat)
  deriving DecidableEq, Repr

/-- `MoGenerator::header_line` (lines 208-227); line 4 prints
`n_clauses`, line 5 prints `n_softs`. -/
def header_line (st : GenSt) (id : Nat) : CommentData :=
  match id with
  | 0 => CommentData.genBy
  | 1 => CommentData.seedInfo st.seed
  | 2 => CommentData.objectives st.objs
  | 3 => CommentData.weightRange st.weight_range.1 st.weight_range.2
  | 4 => CommentData.clauses (n_clauses st)
  | 5 => CommentData.softClauses (n_softs st)
  | 6 => CommentData.eqsCount st.eqs
  | 7 => CommentData.andsCount st.ands
  | 8 => CommentData.xors3Count st.xors3
  | _ => CommentData.xors4Count st.xors4

/-- `MoGenerator::layer_desc`. -/
def layer_desc (st : GenSt) (idx : Nat) : CommentData :=
  let l := st.layers.getD idx default
  CommentData.layerDesc idx l.range.1 l.range.2 l.n_clauses

/-- `map_clause` of `src/generate.rs`. -/
def map_clause (cl : GCl) : McnfLine :=
  match cl.1 with
  | some (o, w) => McnfLine.soft cl.2 w o
  | none => McnfLine.hard cl.2

/-- Push a gadget batch: the first clause is returned (the source's
`cls.pop()` after `drain(1..)` leaves exactly `cls[0]`), the rest go onto
the buffer stack (`Vec::extend` + later `Vec::pop` drains them last-pushed
first). -/
def emit_batch (cls : List GCl) (st : GenSt) (next_state : LineType) :
    Option (McnfLine × GenSt) :=
  some (map_clause (cls.headD (none, [])),
    st.withBufferState ((cls.drop 1).reverse ++ st.buffer) next_state)

/-- One pass of the `loop` of `Iterator::next` (lines 441-511): either a
`return` (`Sum.inl`) or a `continue` with the advanced cursor
(`Sum.inr`). -/
def phase_step (st : GenSt) :
    Except Unit (Sum (Option (McnfLine × GenSt)) GenSt) :=
  match st.state with
  | LineType.Header id =>
    if id > 9 then Except.ok (Sum.inr (st.withState (LineType.LayerDesc 0)))
    else
      Except.ok (Sum.inl (some (McnfLine.comment (header_line st id),
        st.withState (LineType.Header (id + 1)))))
  | LineType.LayerDesc idx =>
    if idx ≥ st.layers.length then
      Except.ok (Sum.inr (st.withState (LineType.LayerCl 0 0)))
    else
      Except.ok (Sum.inl (some (McnfLine.comment (layer_desc st idx),
        st.withState (LineType.LayerDesc (idx + 1)))))
  | LineType.LayerCl lidx cidx =>
    if lidx ≥ st.layers.length then
      Except.ok (Sum.inr (st.withState (LineType.EqCl 0)))
    else if cidx ≥ (st.layers.getD lidx default).n_clauses then
      Except.ok (Sum.inr (st.withState (LineType.LayerCl (lidx + 1) 0)))
    else do
      let (cl, st') ← layer_clause (st.withState (LineType.LayerCl lidx (cidx + 1))) lidx
      Except.ok (Sum.inl (some (map_clause cl, st')))
  | LineType.EqCl idx =>
    if idx ≥ st.eqs then Except.ok (Sum.inr (st.withState (LineType.AndCl 0)))
    else do
      let (cls, st') ← eq_clauses st idx (st.rng.length + 2)
      Except.ok (Sum.inl (emit_batch cls st' (LineType.EqCl (idx + 1))))
  | LineType.AndCl idx =>
    if idx ≥ st.ands then Except.ok (Sum.inr (st.withState (LineType.Xor3Cl 0)))
    else do
      let (cls, st') ← and_clauses st idx
      Except.ok (Sum.inl (emit_batch cls st' (LineType.AndCl (idx + 1))))
  | LineType.Xor3Cl idx =>
    if idx ≥ st.xors3 then Except.ok (Sum.inr (st.withState (LineType.Xor4Cl 0)))
    else do
      let (cls, st') ← xor3_clauses st idx
      Except.ok (Sum.inl (emit_batch cls st' (LineType.Xor3Cl (idx + 1))))
  | LineType.Xor4Cl idx =>
    if idx ≥ st.xors4 then Except.ok (Sum.inl none)
    else do
      let (cls, st') ← xor4_clauses st idx
      Except.ok (Sum.inl (emit_batch cls st' (LineType.Xor4Cl (idx + 1))))

/-- The `loop` of `Iterator::next`.  Each `continue` either moves to a
later phase or advances the layer index, so `layers.length + 8` steps
always reach a `return`. -/
def nextLoop (st : GenSt) : Nat → Except Unit (Option (McnfLine × GenSt))
  | 0 => Except.error ()
  | fuel + 1 =>
    match phase_step st with
    | Except.error e => Except.error e
    | Except.ok (Sum.inl r) => Except.ok r
    | Except.ok (Sum.inr st') => nextLoop st' fuel

/-- `Iterator::next` for `MoGenerator`: drain the gadget buffer
(`Vec::pop` takes the most recently pushed clause), else step the
cursor. -/
def next (st : GenSt) : Except Unit (Option (McnfLine × GenSt)) :=
  match st.buffer with
  | cl :: rest => Except.ok (some (map_clause cl, st.withBuffer rest))
  | [] => nextLoop st (st.layers.length + 8)

/-- Iterate the generator to exhaustion, collecting the emitted lines
(fuel-bounded; the stream is finite). -/
def runGen (st : GenSt) : Nat → Except Unit (List McnfLine)
  | 0 => Except.error ()
  | fuel + 1 =>
    match next st with
    | Except.error e => Except.error e
    | Except.ok none => Except.ok []
    | Except.ok (some (l, st')) => (runGen st' fuel).map (l :: ·)

/-- The full generator run: initialize from (config, tape), then stream
every line. -/
def genOutput (cfg : InstConfig) (tape : Tape) (fuel : Nat) : Except Unit (List McnfLine) :=
  match init cfg tape with
  | Except.error e => Except.error e
  | Except.ok st => runGen st fuel

/-- Number of clause lines (hard or soft) in an emitted line stream. -/
def countClauseLines (lines : List McnfLine) : Nat :=
  lines.countP fun l =>
    match l with
    | McnfLine.comment _ => false
    | _ => true

/-- `true` when a clause holds two literals of the same variable. -/
def hasRepeatedVar : GClause → Bool
  | [] => false
  | l :: rest => rest.any (fun l2 => l2.vidx == l.vidx) || hasRepeatedVar rest

/-- Lift of `hasRepeatedVar` to emitted lines. -/
def lineRepeatedVar : McnfLine → Bool
  | McnfLine.hard c => hasRepeatedVar c
  | McnfLine.soft c _ _ => hasRepeatedVar c
  | McnfLine.comment _ => false

/-! ### A concrete reference run

The run below uses a configuration with one Tiny layer and no objectives
(`objectives = 0..=0`, `layers = 1..=1`), a tape under which `init` draws
`max_width = 5`, one layer of width 5 (range [0,6), 5 clauses), no
equalities or ANDs, and exactly one XOR3 and one XOR4 gadget (both hard,
since there are no objectives).  The whole emitted stream is derived step
by step (`runR_next*`) and assembled into `runR_output`. -/

/-- Unfolding of `runGen` over one emitted line. -/
theorem runGen_step {st st' : GenSt} {l : McnfLine} {ls : List McnfLine} {n : Nat}
    (h : next st = Except.ok (some (l, st'))) (h2 : runGen st' n = Except.ok ls) :
    runGen st (n + 1) = Except.ok (l :: ls) := by
  simp [runGen, h, h2, Except.map]

/-- Unfolding of `runGen` at the end of the stream. -/
theorem runGen_end {st : GenSt} {n : Nat} (h : next st = Except.ok none) :
    runGen st (n + 1) = Except.ok [] := by
  simp [runGen, h]

/-- Configuration of the reference run. -/
def cfgR : InstConfig := ⟨some 0, 0, 0, 1, 1, LayerType.Tiny⟩

/-- Tape of the reference run (entries past the end read as 0). -/
def tapeR : Tape :=
  [0, 0, 0, 0, 0, 0, 1, 1, 1, 1, 0, 0] ++
  [0, 0, 0, 0, 0] ++
  [0, 0, 0, 0, 0] ++
  [0, 0, 0, 0, 0] ++
  [0, 0, 0, 1, 0, 2, 0] ++
  [0, 0, 0, 1, 0, 2, 0]

set_option maxHeartbeats 1000000

/-- State 0 of the reference run (after emitting 0 lines). -/
def runSt0 : GenSt :=
  { rng := [0, 0, 0, 0, 0, 0, 0, 0, 0, 0, 0, 0, 0, 0, 0, 0, 0, 0, 1, 0, 2, 0, 0, 0, 0, 1, 0, 2, 0],
    seed := some 0,
    objs := 0,
    layers := [{ range := (0, 6),
                 n_clauses := 5,
                 soft := 0,
                 unused := [{ vidx := 0, neg := false },
                            { vidx := 0, neg := true },
                            { vidx := 1, neg := false },
                            { vidx := 1, neg := true },
                            { vidx := 2, neg := false },
                            { vidx := 2, neg := true },
                            { vidx := 3, neg := false },
                            { vidx := 3, neg := true },
                            { vidx := 4, neg := false },
                            { vidx := 4, neg := true },
                            { vidx := 5, neg := false },
                            { vidx := 5, neg := true }] }],
    arity := [],
    soft := [0, 0],
    eqs := 0,
    ands := 0,
    xors3 := 1,
    xors4 := 1,
    n_soft_left := [],
    weight_range := (1, 2),
    weight_sum := 0,
    state := Fazer.LineType.Header 0,
    next_free_var := 6,
    buffer := [] }

/-- State 1 of the reference run (after emitting 1 lines). -/
def runSt1 : GenSt :=
  { rng := [0, 0, 0, 0, 0, 0, 0, 0, 0, 0, 0, 0, 0, 0, 0, 0, 0, 0, 1, 0, 2, 0, 0, 0, 0, 1, 0, 2, 0],
    seed := some 0,
    objs := 0,
    layers := [{ range := (0, 6),
                 n_clauses := 5,
                 soft := 0,
                 unused := [{ vidx := 0, neg := false },
                            { vidx := 0, neg := true },
                            { vidx := 1, neg := false },
                            { vidx := 1, neg := true },
                            { vidx := 2, neg := false },
                            { vidx := 2, neg := true },
                            { vidx := 3, neg := false },
                            { vidx := 3, neg := true },
                            { vidx := 4, neg := false },
                            { vidx := 4, neg := true },
                            { vidx := 5, neg := false },
                            { vidx := 5, neg := true }] }],
    arity := [],
    soft := [0, 0],
    eqs := 0,
    ands := 0,
    xors3 := 1,
    xors4 := 1,
    n_soft_left := [],
    weight_range := (1, 2),
    weight_sum := 0,
    state := Fazer.LineType.Header 1,
    next_free_var := 6,
    buffer := [] }

/-- State 2 of the reference run (after emitting 2 lines). -/
def runSt2 : GenSt :=
  { rng := [0, 0, 0, 0, 0, 0, 0, 0, 0, 0, 0, 0, 0, 0, 0, 0, 0, 0, 1, 0, 2, 0, 0, 0, 0, 1, 0, 2, 0],
    seed := some 0,
    objs := 0,
    layers := [{ range := (0, 6),
                 n_clauses := 5,
                 soft := 0,
                 unused := [{ vidx := 0, neg := false },
                            { vidx := 0, neg := true },
                            { vidx := 1, neg := false },
                            { vidx := 1, neg := true },
                            { vidx := 2, neg := false },
                            { vidx := 2, neg := true },
                            { vidx := 3, neg := false },
                            { vidx := 3, neg := true },
                            { vidx := 4, neg := false },
                            { vidx := 4, neg := true },
                            { vidx := 5, neg := false },
                            { vidx := 5, neg := true }] }],
    arity := [],
    soft := [0, 0],
    eqs := 0,
    ands := 0,
    xors3 := 1,
    xors4 := 1,
    n_soft_left := [],
    weight_range := (1, 2),
    weight_sum := 0,
    state := Fazer.LineType.Header 2,
    next_free_var := 6,
    buffer := [] }

/-- State 3 of the reference run (after emitting 3 lines). -/
def runSt3 : GenSt :=
  { rng := [0, 0, 0, 0, 0, 0, 0, 0, 0, 0, 0, 0, 0, 0, 0, 0, 0, 0, 1, 0, 2, 0, 0, 0, 0, 1, 0, 2, 0],
    seed := some 0,
    objs := 0,
    layers := [{ range := (0, 6),
                 n_clauses := 5,
                 soft := 0,
                 unused := [{ vidx := 0, neg := false },
                            { vidx := 0, neg := true },
                            { vidx := 1, neg := false },
                            { vidx := 1, neg := true },
                            { vidx := 2, neg := false },
                            { vidx := 2, neg := true },
                            { vidx := 3, neg := false },
                            { vidx := 3, neg := true },
                            { vidx := 4, neg := false },
                            { vidx := 4, neg := true },
                            { vidx := 5, neg := false },
                            { vidx := 5, neg := true }] }],
    arity := [],
    soft := [0, 0],
    eqs := 0,
    ands := 0,
    xors3 := 1,
    xors4 := 1,
    n_soft_left := [],
    weight_range := (1, 2),
    weight_sum := 0,
    state := Fazer.LineType.Header 3,
    next_free_var := 6,
    buffer := [] }

/-- State 4 of the reference run (after emitting 4 lines). -/
def runSt4 : GenSt :=
  { rng := [0, 0, 0, 0, 0, 0, 0, 0, 0, 0, 0, 0, 0, 0, 0, 0, 0, 0, 1, 0, 2, 0, 0, 0, 0, 1, 0, 2, 0],
    seed := some 0,
    objs := 0,
    layers := [{ range := (0, 6),
                 n_clauses := 5,
                 soft := 0,
                 unused := [{ vidx := 0, neg := false },
                            { vidx := 0, neg := true },
                            { vidx := 1, neg := false },
                            { vidx := 1, neg := true },
                            { vidx := 2, neg := false },
                            { vidx := 2, neg := true },
                            { vidx := 3, neg := false },
                            { vidx := 3, neg := true },
                            { vidx := 4, neg := false },
                            { vidx := 4, neg := true },
                            { vidx := 5, neg := false },
                            { vidx := 5, neg := true }] }],
    arity := [],
    soft := [0, 0],
    eqs := 0,
    ands := 0,
    xors3 := 1,
    xors4 := 1,
    n_soft_left := [],
    weight_range := (1, 2),
    weight_sum := 0,
    state := Fazer.LineType.Header 4,
    next_free_var := 6,
    buffer := [] }

/-- State 5 of the reference run (after emitting 5 lines). -/
def runSt5 : GenSt :=
  { rng := [0, 0, 0, 0, 0, 0, 0, 0, 0, 0, 0, 0, 0, 0, 0, 0, 0, 0, 1, 0, 2, 0, 0, 0, 0, 1, 0, 2, 0],
    seed := some 0,
    objs := 0,
    layers := [{ range := (0, 6),
                 n_clauses := 5,
                 soft := 0,
                 unused := [{ vidx := 0, neg := false },
                            { vidx := 0, neg := true },
                            { vidx := 1, neg := false },
                            { vidx := 1, neg := true },
                            { vidx := 2, neg := false },
                            { vidx := 2, neg := true },
                            { vidx := 3, neg := false },
                            { vidx := 3, neg := true },
                            { vidx := 4, neg := false },
                            { vidx := 4, neg := true },
                            { vidx := 5, neg := false },
                            { vidx := 5, neg := true }] }],
    arity := [],
    soft := [0, 0],
    eqs := 0,
    ands := 0,
    xors3 := 1,
    xors4 := 1,
    n_soft_left := [],
    weight_range := (1, 2),
    weight_sum := 0,
    state := Fazer.LineType.Header 5,
    next_free_var := 6,
    buffer := [] }

/-- State 6 of the reference run (after emitting 6 lines). -/
def runSt6 : GenSt :=
  { rng := [0, 0, 0, 0, 0, 0, 0, 0, 0, 0, 0, 0, 0, 0, 0, 0, 0, 0, 1, 0, 2, 0, 0, 0, 0, 1, 0, 2, 0],
    seed := some 0,
    objs := 0,
    layers := [{ range := (0, 6),
                 n_clauses := 5,
                 soft := 0,
                 unused := [{ vidx := 0, neg := false },
                            { vidx := 0, neg := true },
                            { vidx := 1, neg := false },
                            { vidx := 1, neg := true },
                            { vidx := 2, neg := false },
                            { vidx := 2, neg := true },
                            { vidx := 3, neg := false },
                            { vidx := 3, neg := true },
                            { vidx := 4, neg := false },
                            { vidx := 4, neg := true },
                            { vidx := 5, neg := false },
                            { vidx := 5, neg := true }] }],
    arity := [],
    soft := [0, 0],
    eqs := 0,
    ands := 0,
    xors3 := 1,
    xors4 := 1,
    n_soft_left := [],
    weight_range := (1, 2),
    weight_sum := 0,
    state := Fazer.LineType.Header 6,
    next_free_var := 6,
    buffer := [] }

/-- State 7 of the reference run (after emitting 7 lines). -/
def runSt7 : GenSt :=
  { rng := [0, 0, 0, 0, 0, 0, 0, 0, 0, 0, 0, 0, 0, 0, 0, 0, 0, 0, 1, 0, 2, 0, 0, 0, 0, 1, 0, 2, 0],
    seed := some 0,
    objs := 0,
    layers := [{ range := (0, 6),
                 n_clauses := 5,
                 soft := 0,
                 unused := [{ vidx := 0, neg := false },
                            { vidx := 0, neg := true },
                            { vidx := 1, neg := false },
                            { vidx := 1, neg := true },
                            { vidx := 2, neg := false },
                            { vidx := 2, neg := true },
                            { vidx := 3, neg := false },
                            { vidx := 3, neg := true },
                            { vidx := 4, neg := false },
                            { vidx := 4, neg := true },
                            { vidx := 5, neg := false },
                            { vidx := 5, neg := true }] }],
    arity := [],
    soft := [0, 0],
    eqs := 0,
    ands := 0,
    xors3 := 1,
    xors4 := 1,
    n_soft_left := [],
    weight_range := (1, 2),
    weight_sum := 0,
    state := Fazer.LineType.Header 7,
    next_free_var := 6,
    buffer := [] }

/-- State 8 of the reference run (after emitting 8 lines). -/
def runSt8 : GenSt :=
  { rng := [0, 0, 0, 0, 0, 0, 0, 0, 0, 0, 0, 0, 0, 0, 0, 0, 0, 0, 1, 0, 2, 0, 0, 0, 0, 1, 0, 2, 0],
    seed := some 0,
    objs := 0,
    layers := [{ range := (0, 6),
                 n_clauses := 5,
                 soft := 0,
                 unused := [{ vidx := 0, neg := false },
                            { vidx := 0, neg := true },
                            { vidx := 1, neg := false },
                            { vidx := 1, neg := true },
                            { vidx := 2, neg := false },
                            { vidx := 2, neg := true },
                            { vidx := 3, neg := false },
                            { vidx := 3, neg := true },
                            { vidx := 4, neg := false },
                            { vidx := 4, neg := true },
                            { vidx := 5, neg := false },
                            { vidx := 5, neg := true }] }],
    arity := [],
    soft := [0, 0],
    eqs := 0,
    ands := 0,
    xors3 := 1,
    xors4 := 1,
    n_soft_left := [],
    weight_range := (1, 2),
    weight_sum := 0,
    state := Fazer.LineType.Header 8,
    next_free_var := 6,
    buffer := [] }

/-- State 9 of the reference run (after emitting 9 lines). -/
def runSt9 : GenSt :=
  { rng := [0, 0, 0, 0, 0, 0, 0, 0, 0, 0, 0, 0, 0, 0, 0, 0, 0, 0, 1, 0, 2, 0, 0, 0, 0, 1, 0, 2, 0],
    seed := some 0,
    objs := 0,
    layers := [{ range := (0, 6),
                 n_clauses := 5,
                 soft := 0,
                 unused := [{ vidx := 0, neg := false },
                            { vidx := 0, neg := true },
                            { vidx := 1, neg := false },
                            { vidx := 1, neg := true },
                            { vidx := 2, neg := false },
                            { vidx := 2, neg := true },
                            { vidx := 3, neg := false },
                            { vidx := 3, neg := true },
                            { vidx := 4, neg := false },
                            { vidx := 4, neg := true },
                            { vidx := 5, neg := false },
                            { vidx := 5, neg := true }] }],
    arity := [],
    soft := [0, 0],
    eqs := 0,
    ands := 0,
    xors3 := 1,
    xors4 := 1,
    n_soft_left := [],
    weight_range := (1, 2),
    weight_sum := 0,
    state := Fazer.LineType.Header 9,
    next_free_var := 6,
    buffer := [] }

/-- State 10 of the reference run (after emitting 10 lines). -/
def runSt10 : GenSt :=
  { rng := [0, 0, 0, 0, 0, 0, 0, 0, 0, 0, 0, 0, 0, 0, 0, 0, 0, 0, 1, 0, 2, 0, 0, 0, 0, 1, 0, 2, 0],
    seed := some 0,
    objs := 0,
    layers := [{ range := (0, 6),
                 n_clauses := 5,
                 soft := 0,
                 unused := [{ vidx := 0, neg := false },
                            { vidx := 0, neg := true },
                            { vidx := 1, neg := false },
                            { vidx := 1, neg := true },
                            { vidx := 2, neg := false },
                            { vidx := 2, neg := true },
                            { vidx := 3, neg := false },
                            { vidx := 3, neg := true },
                            { vidx := 4, neg := false },
                            { vidx := 4, neg := true },
                            { vidx := 5, neg := false },
                            { vidx := 5, neg := true }] }],
    arity := [],
    soft := [0, 0],
    eqs := 0,
    ands := 0,
    xors3 := 1,
    xors4 := 1,
    n_soft_left := [],
    weight_range := (1, 2),
    weight_sum := 0,
    state := Fazer.LineType.Header 10,
    next_free_var := 6,
    buffer := [] }

/-- State 11 of the reference run (after emitting 11 lines). -/
def runSt11 : GenSt :=
  { rng := [0, 0, 0, 0, 0, 0, 0, 0, 0, 0, 0, 0, 0, 0, 0, 0, 0, 0, 1, 0, 2, 0, 0, 0, 0, 1, 0, 2, 0],
    seed := some 0,
    objs := 0,
    layers := [{ range := (0, 6),
                 n_clauses := 5,
                 soft := 0,
                 unused := [{ vidx := 0, neg := false },
                            { vidx := 0, neg := true },
                            { vidx := 1, neg := false },
                            { vidx := 1, neg := true },
                            { vidx := 2, neg := false },
                            { vidx := 2, neg := true },
                            { vidx := 3, neg := false },
                            { vidx := 3, neg := true },
                            { vidx := 4, neg := false },
                            { vidx := 4, neg := true },
                            { vidx := 5, neg := false },
                            { vidx := 5, neg := true }] }],
    arity := [],
    soft := [0, 0],
    eqs := 0,
    ands := 0,
    xors3 := 1,
    xors4 := 1,
    n_soft_left := [],
    weight_range := (1, 2),
    weight_sum := 0,
    state := Fazer.LineType.LayerDesc 1,
    next_free_var := 6,
    buffer := [] }

/-- State 12 of the reference run (after emitting 12 lines). -/
def runSt12 : GenSt :=
  { rng := [0, 0, 0, 0, 0, 0, 0, 0, 0, 0, 0, 0, 0, 1, 0, 2, 0, 0, 0, 0, 1, 0, 2, 0],
    seed := some 0,
    objs := 0,
    layers := [{ range := (0, 6),
                 n_clauses := 5,
                 soft := 0,
                 unused := [{ vidx := 4, neg := false },
                            { vidx := 0, neg := true },
                            { vidx := 1, neg := false },
                            { vidx := 1, neg := true },
                            { vidx := 2, neg := false },
                            { vidx := 2, neg := true },
                            { vidx := 3, neg := false },
                            { vidx := 3, neg := true }] }],
    arity := [],
    soft := [0, 0],
    eqs := 0,
    ands := 0,
    xors3 := 1,
    xors4 := 1,
    n_soft_left := [],
    weight_range := (1, 2),
    weight_sum := 0,
    state := Fazer.LineType.LayerCl 0 1,
    next_free_var := 6,
    buffer := [] }

/-- State 13 of the reference run (after emitting 13 lines). -/
def runSt13 : GenSt :=
  { rng := [0, 0, 0, 0, 0, 0, 0, 0, 1, 0, 2, 0, 0, 0, 0, 1, 0, 2, 0],
    seed := some 0,
    objs := 0,
    layers := [{ range := (0, 6),
                 n_clauses := 5,
                 soft := 0,
                 unused := [{ vidx := 2, neg := false },
                            { vidx := 0, neg := true },
                            { vidx := 1, neg := false },
                            { vidx := 1, neg := true }] }],
    arity := [],
    soft := [0, 0],
    eqs := 0,
    ands := 0,
    xors3 := 1,
    xors4 := 1,
    n_soft_left := [],
    weight_range := (1, 2),
    weight_sum := 0,
    state := Fazer.LineType.LayerCl 0 2,
    next_free_var := 6,
    buffer := [] }

/-- State 14 of the reference run (after emitting 14 lines). -/
def runSt14 : GenSt :=
  { rng := [0, 0, 0, 1, 0, 2, 0, 0, 0, 0, 1, 0, 2, 0],
    seed := some 0,
    objs := 0,
    layers := [{ range := (0, 6), n_clauses := 5, soft := 0, unused := [] }],
    arity := [],
    soft := [0, 0],
    eqs := 0,
    ands := 0,
    xors3 := 1,
    xors4 := 1,
    n_soft_left := [],
    weight_range := (1, 2),
    weight_sum := 0,
    state := Fazer.LineType.LayerCl 0 3,
    next_free_var := 6,
    buffer := [] }

/-- State 15 of the reference run (after emitting 15 lines). -/
def runSt15 : GenSt :=
  { rng := [0, 0, 0, 1, 0, 2, 0],
    seed := some 0,
    objs := 0,
    layers := [{ range := (0, 6), n_clauses := 5, soft := 0, unused := [] }],
    arity := [],
    soft := [0, 0],
    eqs := 0,
    ands := 0,
    xors3 := 1,
    xors4 := 1,
    n_soft_left := [],
    weight_range := (1, 2),
    weight_sum := 0,
    state := Fazer.LineType.LayerCl 0 4,
    next_free_var := 6,
    buffer := [] }

/-- State 16 of the reference run (after emitting 16 lines). -/
def runSt16 : GenSt :=
  { rng := [],
    seed := some 0,
    objs := 0,
    layers := [{ range := (0, 6), n_clauses := 5, soft := 0, unused := [] }],
    arity := [],
    soft := [0, 0],
    eqs := 0,
    ands := 0,
    xors3 := 1,
    xors4 := 1,
    n_soft_left := [],
    weight_range := (1, 2),
    weight_sum := 0,
    state := Fazer.LineType.LayerCl 0 5,
    next_free_var := 6,
    buffer := [] }

/-- State 17 of the reference run (after emitting 17 lines). -/
def runSt17 : GenSt :=
  { rng := [],
    seed := some 0,
    objs := 0,
    layers := [{ range := (0, 6), n_clauses := 5, soft := 0, unused := [] }],
    arity := [],
    soft := [0, 0],
    eqs := 0,
    ands := 0,
    xors3 := 1,
    xors4 := 1,
    n_soft_left := [],
    weight_range := (1, 2),
    weight_sum := 0,
    state := Fazer.LineType.Xor3Cl 1,
    next_free_var := 6,
    buffer := [(none,
                [{ vidx := 0, neg := true },
                 { vidx := 0, neg := true },
                 { vidx := 0, neg := false }]),
               (none,
                [{ vidx := 0, neg := true },
                 { vidx := 0, neg := false },
                 { vidx := 0, neg := true }]),
               (none,
                [{ vidx := 0, neg := false },
                 { vidx := 0, neg := true },
                 { vidx := 0, neg := true }])] }

/-- State 18 of the reference run (after emitting 18 lines). -/
def runSt18 : GenSt :=
  { rng := [],
    seed := some 0,
    objs := 0,
    layers := [{ range := (0, 6), n_clauses := 5, soft := 0, unused := [] }],
    arity := [],
    soft := [0, 0],
    eqs := 0,
    ands := 0,
    xors3 := 1,
    xors4 := 1,
    n_soft_left := [],
    weight_range := (1, 2),
    weight_sum := 0,
    state := Fazer.LineType.Xor3Cl 1,
    next_free_var := 6,
    buffer := [(none,
                [{ vidx := 0, neg := true },
                 { vidx := 0, neg := false },
                 { vidx := 0, neg := true }]),
               (none,
                [{ vidx := 0, neg := false },
                 { vidx := 0, neg := true },
                 { vidx := 0, neg := true }])] }

/-- State 19 of the reference run (after emitting 19 lines). -/
def runSt19 : GenSt :=
  { rng := [],
    seed := some 0,
    objs := 0,
    layers := [{ range := (0, 6), n_clauses := 5, soft := 0, unused := [] }],
    arity := [],
    soft := [0, 0],
    eqs := 0,
    ands := 0,
    xors3 := 1,
    xors4 := 1,
    n_soft_left := [],
    weight_range := (1, 2),
    weight_sum := 0,
    state := Fazer.LineType.Xor3Cl 1,
    next_free_var := 6,
    buffer := [(none,
                [{ vidx := 0, neg := false },
                 { vidx := 0, neg := true },
                 { vidx := 0, neg := true }])] }

/-- State 20 of the reference run (after emitting 20 lines). -/
def runSt20 : GenSt :=
  { rng := [],
    seed := some 0,
    objs := 0,
    layers := [{ range := (0, 6), n_clauses := 5, soft := 0, unused := [] }],
    arity := [],
    soft := [0, 0],
    eqs := 0,
    ands := 0,
    xors3 := 1,
    xors4 := 1,
    n_soft_left := [],
    weight_range := (1, 2),
    weight_sum := 0,
    state := Fazer.LineType.Xor3Cl 1,
    next_free_var := 6,
    buffer := [] }

/-- State 21 of the reference run (after emitting 21 lines). -/
def runSt21 : GenSt :=
  { rng := [],
    seed := some 0,
    objs := 0,
    layers := [{ range := (0, 6), n_clauses := 5, soft := 0, unused := [] }],
    arity := [],
    soft := [0, 0],
    eqs := 0,
    ands := 0,
    xors3 := 1,
    xors4 := 1,
    n_soft_left := [],
    weight_range := (1, 2),
    weight_sum := 0,
    state := Fazer.LineType.Xor4Cl 1,
    next_free_var := 6,
    buffer := [(none,
                [{ vidx := 0, neg := true },
                 { vidx := 0, neg := true },
                 { vidx := 0, neg := false }]),
               (none,
                [{ vidx := 0, neg := true },
                 { vidx := 0, neg := false },
                 { vidx := 0, neg := true }]),
               (none,
                [{ vidx := 0, neg := false },
                 { vidx := 0, neg := true },
                 { vidx := 0, neg := true }])] }

/-- State 22 of the reference run (after emitting 22 lines). -/
def runSt22 : GenSt :=
  { rng := [],
    seed := some 0,
    objs := 0,
    layers := [{ range := (0, 6), n_clauses := 5, soft := 0, unused := [] }],
    arity := [],
    soft := [0, 0],
    eqs := 0,
    ands := 0,
    xors3 := 1,
    xors4 := 1,
    n_soft_left := [],
    weight_range := (1, 2),
    weight_sum := 0,
    state := Fazer.LineType.Xor4Cl 1,
    next_free_var := 6,
    buffer := [(none,
                [{ vidx := 0, neg := true },
                 { vidx := 0, neg := false },
                 { vidx := 0, neg := true }]),
               (none,
                [{ vidx := 0, neg := false },
                 { vidx := 0, neg := true },
                 { vidx := 0, neg := true }])] }

/-- State 23 of the reference run (after emitting 23 lines). -/
def runSt23 : GenSt :=
  { rng := [],
    seed := some 0,
    objs := 0,
    layers := [{ range := (0, 6), n_clauses := 5, soft := 0, unused := [] }],
    arity := [],
    soft := [0, 0],
    eqs := 0,
    ands := 0,
    xors3 := 1,
    xors4 := 1,
    n_soft_left := [],
    weight_range := (1, 2),
    weight_sum := 0,
    state := Fazer.LineType.Xor4Cl 1,
    next_free_var := 6,
    buffer := [(none,
                [{ vidx := 0, neg := false },
                 { vidx := 0, neg := true },
                 { vidx := 0, neg := true }])] }

/-- State 24 of the reference run (after emitting 24 lines). -/
def runSt24 : GenSt :=
  { rng := [],
    seed := some 0,
    objs := 0,
    layers := [{ range := (0, 6), n_clauses := 5, soft := 0, unused := [] }],
    arity := [],
    soft := [0, 0],
    eqs := 0,
    ands := 0,
    xors3 := 1,
    xors4 := 1,
    n_soft_left := [],
    weight_range := (1, 2),
    weight_sum := 0,
    state := Fazer.LineType.Xor4Cl 1,
    next_free_var := 6,
    buffer := [] }

/-- Line 0 of the reference run. -/
def runL0 : McnfLine :=
  Fazer.McnfLine.comment (Fazer.CommentData.genBy)

/-- Line 1 of the reference run. -/
def runL1 : McnfLine :=
  Fazer.McnfLine.comment (Fazer.CommentData.seedInfo (some 0))

/-- Line 2 of the reference run. -/
def runL2 : McnfLine :=
  Fazer.McnfLine.comment (Fazer.CommentData.objectives 0)

/-- Line 3 of the reference run. -/
def runL3 : McnfLine :=
  Fazer.McnfLine.comment (Fazer.CommentData.weightRange 1 2)

/-- Line 4 of the reference run. -/
def runL4 : McnfLine :=
  Fazer.McnfLine.comment (Fazer.CommentData.clauses 17)

/-- Line 5 of the reference run. -/
def runL5 : McnfLine :=
  Fazer.McnfLine.comment (Fazer.CommentData.softClauses [])

/-- Line 6 of the reference run. -/
def runL6 : McnfLine :=
  Fazer.McnfLine.comment (Fazer.CommentData.eqsCount 0)

/-- Line 7 of the reference run. -/
def runL7 : McnfLine :=
  Fazer.McnfLine.comment (Fazer.CommentData.andsCount 0)

/-- Line 8 of the reference run. -/
def runL8 : McnfLine :=
  Fazer.McnfLine.comment (Fazer.CommentData.xors3Count 1)

/-- Line 9 of the reference run. -/
def runL9 : McnfLine :=
  Fazer.McnfLine.comment (Fazer.CommentData.xors4Count 1)

/-- Line 10 of the reference run. -/
def runL10 : McnfLine :=
  Fazer.McnfLine.comment (Fazer.CommentData.layerDesc 0 0 6 5)

/-- Line 11 of the reference run. -/
def runL11 : McnfLine :=
  Fazer.McnfLine.hard
    [{ vidx := 0, neg := false }, { vidx := 5, neg := true }, { vidx := 4, neg := true }]

/-- Line 12 of the reference run. -/
def runL12 : McnfLine :=
  Fazer.McnfLine.hard
    [{ vidx := 4, neg := false }, { vidx := 3, neg := true }, { vidx := 2, neg := true }]

/-- Line 13 of the reference run. -/
def runL13 : McnfLine :=
  Fazer.McnfLine.hard
    [{ vidx := 2, neg := false }, { vidx := 1, neg := true }, { vidx := 0, neg := true }]

/-- Line 14 of the reference run. -/
def runL14 : McnfLine :=
  Fazer.McnfLine.hard
    [{ vidx := 0, neg := false }, { vidx := 1, neg := false }, { vidx := 2, neg := false }]

/-- Line 15 of the reference run. -/
def runL15 : McnfLine :=
  Fazer.McnfLine.hard
    [{ vidx := 0, neg := false }, { vidx := 1, neg := false }, { vidx := 2, neg := false }]

/-- Line 16 of the reference run. -/
def runL16 : McnfLine :=
  Fazer.McnfLine.hard
    [{ vidx := 0, neg := false }, { vidx := 0, neg := false }, { vidx := 0, neg := false }]

/-- Line 17 of the reference run. -/
def runL17 : McnfLine :=
  Fazer.McnfLine.hard
    [{ vidx := 0, neg := true }, { vidx := 0, neg := true }, { vidx := 0, neg := false }]

/-- Line 18 of the reference run. -/
def runL18 : McnfLine :=
  Fazer.McnfLine.hard
    [{ vidx := 0, neg := true }, { vidx := 0, neg := false }, { vidx := 0, neg := true }]

/-- Line 19 of the reference run. -/
def runL19 : McnfLine :=
  Fazer.McnfLine.hard
    [{ vidx := 0, neg := false }, { vidx := 0, neg := true }, { vidx := 0, neg := true }]

/-- Line 20 of the reference run. -/
def runL20 : McnfLine :=
  Fazer.McnfLine.hard
    [{ vidx := 0, neg := false }, { vidx := 0, neg := false }, { vidx := 0, neg := false }]

/-- Line 21 of the reference run. -/
def runL21 : McnfLine :=
  Fazer.McnfLine.hard
    [{ vidx := 0, neg := true }, { vidx := 0, neg := true }, { vidx := 0, neg := false }]

/-- Line 22 of the reference run. -/
def runL22 : McnfLine :=
  Fazer.McnfLine.hard
    [{ vidx := 0, neg := true }, { vidx := 0, neg := false }, { vidx := 0, neg := true }]

/-- Line 23 of the reference run. -/
def runL23 : McnfLine :=
  Fazer.McnfLine.hard
    [{ vidx := 0, neg := false }, { vidx := 0, neg := true }, { vidx := 0, neg := true }]

/-- Initialization of the reference run. -/
theorem runR_init : init cfgR tapeR = Except.ok runSt0 := by decide

/-- Step 0 of the reference run. -/
theorem runR_next0 : next runSt0 = Except.ok (some (runL0, runSt1)) := by
  decide

/-- Step 1 of the reference run. -/
theorem runR_next1 : next runSt1 = Except.ok (some (runL1, runSt2)) := by
  decide

/-- Step 2 of the reference run. -/
theorem runR_next2 : next runSt2 = Except.ok (some (runL2, runSt3)) := by
  decide

/-- Step 3 of the reference run. -/
theorem runR_next3 : next runSt3 = Except.ok (some (runL3, runSt4)) := by
  decide

/-- Step 4 of the reference run. -/
theorem runR_next4 : next runSt4 = Except.ok (some (runL4, runSt5)) := by
  decide

/-- Step 5 of the reference run. -/
theorem runR_next5 : next runSt5 = Except.ok (some (runL5, runSt6)) := by
  decide

/-- Step 6 of the reference run. -/
theorem runR_next6 : next runSt6 = Except.ok (some (runL6, runSt7)) := by
  decide

/-- Step 7 of the reference run. -/
theorem runR_next7 : next runSt7 = Except.ok (some (runL7, runSt8)) := by
  decide

/-- Step 8 of the reference run. -/
theorem runR_next8 : next runSt8 = Except.ok (some (runL8, runSt9)) := by
  decide

/-- Step 9 of the reference run. -/
theorem runR_next9 : next runSt9 = Except.ok (some (runL9, runSt10)) := by
  decide

/-- Step 10 of the reference run. -/
theorem runR_next10 : next runSt10 = Except.ok (some (runL10, runSt11)) := by
  decide

/-- Step 11 of the reference run. -/
theorem runR_next11 : next runSt11 = Except.ok (some (runL11, runSt12)) := by
  decide

/-- Step 12 of the reference run. -/
theorem runR_next12 : next runSt12 = Except.ok (some (runL12, runSt13)) := by
  decide

/-- Step 13 of the reference run. -/
theorem runR_next13 : next runSt13 = Except.ok (some (runL13, runSt14)) := by
  decide

/-- Step 14 of the reference run. -/
theorem runR_next14 : next runSt14 = Except.ok (some (runL14, runSt15)) := by
  decide

/-- Step 15 of the reference run. -/
theorem runR_next15 : next runSt15 = Except.ok (some (runL15, runSt16)) := by
  decide

/-- Step 16 of the reference run. -/
theorem runR_next16 : next runSt16 = Except.ok (some (runL16, runSt17)) := by
  decide

/-- Step 17 of the reference run. -/
theorem runR_next17 : next runSt17 = Except.ok (some (runL17, runSt18)) := by
  decide

/-- Step 18 of the reference run. -/
theorem runR_next18 : next runSt18 = Except.ok (some (runL18, runSt19)) := by
  decide

/-- Step 19 of the reference run. -/
theorem runR_next19 : next runSt19 = Except.ok (some (runL19, runSt20)) := by
  decide

/-- Step 20 of the reference run. -/
theorem runR_next20 : next runSt20 = Except.ok (some (runL20, runSt21)) := by
  decide

/-- Step 21 of the reference run. -/
theorem runR_next21 : next runSt21 = Except.ok (some (runL21, runSt22)) := by
  decide

/-- Step 22 of the reference run. -/
theorem runR_next22 : next runSt22 = Except.ok (some (runL22, runSt23)) := by
  decide

/-- Step 23 of the reference run. -/
theorem runR_next23 : next runSt23 = Except.ok (some (runL23, runSt24)) := by
  decide

/-- The reference run's stream ends after line 23. -/
theorem runR_next24 : next runSt24 = Except.ok none := by decide

/-- All lines of the reference run, in emission order. -/
def runLines : List McnfLine :=
  [runL0, runL1, runL2, runL3, runL4, runL5, runL6, runL7, runL8, runL9, runL10, runL11, runL12, runL13, runL14, runL15, runL16, runL17, runL18, runL19, runL20, runL21, runL22, runL23]

theorem runR_tail24 : runGen runSt24 40 = Except.ok [] :=
  runGen_end runR_next24

theorem runR_tail23 : runGen runSt23 41 = Except.ok [runL23] :=
  runGen_step runR_next23 runR_tail24

theorem runR_tail22 : runGen runSt22 42 = Except.ok [runL22, runL23] :=
  runGen_step runR_next22 runR_tail23

theorem runR_tail21 : runGen runSt21 43 = Except.ok [runL21, runL22, runL23] :=
  runGen_step runR_next21 runR_tail22

theorem runR_tail20 : runGen runSt20 44 = Except.ok [runL20, runL21, runL22, runL23] :=
  runGen_step runR_next20 runR_tail21

theorem runR_tail19 : runGen runSt19 45 = Except.ok [runL19, runL20, runL21, runL22, runL23] :=
  runGen_step runR_next19 runR_tail20

theorem runR_tail18 : runGen runSt18 46 = Except.ok [runL18, runL19, runL20, runL21, runL22, runL23] :=
  runGen_step runR_next18 runR_tail19

theorem runR_tail17 : runGen runSt17 47 = Except.ok [runL17, runL18, runL19, runL20, runL21, runL22, runL23] :=
  runGen_step runR_next17 runR_tail18

theorem runR_tail16 : runGen runSt16 48 = Except.ok [runL16, runL17, runL18, runL19, runL20, runL21, runL22, runL23] :=
  runGen_step runR_next16 runR_tail17

theorem runR_tail15 : runGen runSt15 49 = Except.ok [runL15, runL16, runL17, runL18, runL19, runL20, runL21, runL22, runL23] :=
  runGen_step runR_next15 runR_tail16

theorem runR_tail14 : runGen runSt14 50 = Except.ok [runL14, runL15, runL16, runL17, runL18, runL19, runL20, runL21, runL22, runL23] :=
  runGen_step runR_next14 runR_tail15

theorem runR_tail13 : runGen runSt13 51 = Except.ok [runL13, runL14, runL15, runL16, runL17, runL18, runL19, runL20, runL21, runL22, runL23] :=
  runGen_step runR_next13 runR_tail14

theorem runR_tail12 : runGen runSt12 52 = Except.ok [runL12, runL13, runL14, runL15, runL16, runL17, runL18, runL19, runL20, runL21, runL22, runL23] :=
  runGen_step runR_next12 runR_tail13

theorem runR_tail11 : runGen runSt11 53 = Except.ok [runL11, runL12, runL13, runL14, runL15, runL16, runL17, runL18, runL19, runL20, runL21, runL22, runL23] :=
  runGen_step runR_next11 runR_tail12

theorem runR_tail10 : runGen runSt10 54 = Except.ok [runL10, runL11, runL12, runL13, runL14, runL15, runL16, runL17, runL18, runL19, runL20, runL21, runL22, runL23] :=
  runGen_step runR_next10 runR_tail11

theorem runR_tail9 : runGen runSt9 55 = Except.ok [runL9, runL10, runL11, runL12, runL13, runL14, runL15, runL16, runL17, runL18, runL19, runL20, runL21, runL22, runL23] :=
  runGen_step runR_next9 runR_tail10

theorem runR_tail8 : runGen runSt8 56 = Except.ok [runL8, runL9, runL10, runL11, runL12, runL13, runL14, runL15, runL16, runL17, runL18, runL19, runL20, runL21, runL22, runL23] :=
  runGen_step runR_next8 runR_tail9

theorem runR_tail7 : runGen runSt7 57 = Except.ok [runL7, runL8, runL9, runL10, runL11, runL12, runL13, runL14, runL15, runL16, runL17, runL18, runL19, runL20, runL21, runL22, runL23] :=
  runGen_step runR_next7 runR_tail8

theorem runR_tail6 : runGen runSt6 58 = Except.ok [runL6, runL7, runL8, runL9, runL10, runL11, runL12, runL13, runL14, runL15, runL16, runL17, runL18, runL19, runL20, runL21, runL22, runL23] :=
  runGen_step runR_next6 runR_tail7

theorem runR_tail5 : runGen runSt5 59 = Except.ok [runL5, runL6, runL7, runL8, runL9, runL10, runL11, runL12, runL13, runL14, runL15, runL16, runL17, runL18, runL19, runL20, runL21, runL22, runL23] :=
  runGen_step runR_next5 runR_tail6

theorem runR_tail4 : runGen runSt4 60 = Except.ok [runL4, runL5, runL6, runL7, runL8, runL9, runL10, runL11, runL12, runL13, runL14, runL15, runL16, runL17, runL18, runL19, runL20, runL21, runL22, runL23] :=
  runGen_step runR_next4 runR_tail5

theorem runR_tail3 : runGen runSt3 61 = Except.ok [runL3, runL4, runL5, runL6, runL7, runL8, runL9, runL10, runL11, runL12, runL13, runL14, runL15, runL16, runL17, runL18, runL19, runL20, runL21, runL22, runL23] :=
  runGen_step runR_next3 runR_tail4

theorem runR_tail2 : runGen runSt2 62 = Except.ok [runL2, runL3, runL4, runL5, runL6, runL7, runL8, runL9, runL10, runL11, runL12, runL13, runL14, runL15, runL16, runL17, runL18, runL19, runL20, runL21, runL22, runL23] :=
  runGen_step runR_next2 runR_tail3

theorem runR_tail1 : runGen runSt1 63 = Except.ok [runL1, runL2, runL3, runL4, runL5, runL6, runL7, runL8, runL9, runL10, runL11, runL12, runL13, runL14, runL15, runL16, runL17, runL18, runL19, runL20, runL21, runL22, runL23] :=
  runGen_step runR_next1 runR_tail2

theorem runR_tail0 : runGen runSt0 64 = Except.ok [runL0, runL1, runL2, runL3, runL4, runL5, runL6, runL7, runL8, runL9, runL10, runL11, runL12, runL13, runL14, runL15, runL16, runL17, runL18, runL19, runL20, runL21, runL22, runL23] :=
  runGen_step runR_next0 runR_tail1

/-- The complete emitted stream of the reference run. -/
theorem runR_output : genOutput cfgR tapeR 64 = Except.ok runLines := by
  simp only [genOutput, runR_init, runLines]
  exact runR_tail0

set_option maxHeartbeats 2000000 in
/-- Claim C3 (code bug): in the reference run the header comment announces
17 clauses (`n_clauses` counts the hard XOR4 gadget as 8 clauses), but the
stream emits only 13 clause lines (the hard XOR4 branch emits the
four-clause XOR3 pattern).  A soft AND gadget similarly emits `arity + 3`
clauses while being counted as `arity + 2`. -/
theorem header_clause_count_mismatch :
    (genOutput cfgR tapeR 64).map (fun lines =>
        (lines.contains (McnfLine.comment (CommentData.clauses 17)),
         countClauseLines lines)) = Except.ok (true, 13) ∧
    (17 : Nat) ≠ 13 := by
  rw [runR_output]
  exact ⟨by decide, by decide⟩

set_option maxHeartbeats 2000000 in
/-- Claim C4, counterexample: the reference run emits an XOR3 clause
containing variable 0 twice — the XOR gadgets draw their literals without
the mark-retry discipline, so the claim as stated fails. -/
theorem xor3_repeated_variable_counterexample :
    (genOutput cfgR tapeR 64).map (fun lines => lines.any lineRepeatedVar) =
      Except.ok true := by
  rw [runR_output]
  decide

/-- A generator state about to draw two soft-clause weights on objective 0
from the widest weight range `1..2^63-1` (reachable as variant 5 of
`draw_weight_range`), with two soft draws outstanding. -/
def stC5 : GenSt :=
  { rng := [2 ^ 63 - 3, 2 ^ 63 - 3],
    seed := none, objs := 1, layers := [], arity := [], soft := [],
    eqs := 0, ands := 0, xors3 := 0, xors4 := 0, n_soft_left := [2],
    weight_range := (1, 2 ^ 63 - 1), weight_sum := 0,
    state := LineType.Header 0, next_free_var := 0, buffer := [] }

/-- Claim C5 (code bug): `weight` never adds the drawn weight to
`weight_sum`, so successive draws are not bounded: from `stC5` two draws
on objective 0 each return `2^63 - 2` while `weight_sum` stays 0, and
their sum already exceeds `2^63 - 1`.  The widest weight range is
reachable: variant 5 of the weight-range draw yields `1..2^63-1`. -/
theorem weight_sum_never_updated :
    ((weight stC5 0).bind fun r1 =>
        (weight r1.2 0).map fun r2 => (r1.1, r2.1, r2.2.weight_sum)) =
      Except.ok (2 ^ 63 - 2, 2 ^ 63 - 2, 0) ∧
    2 ^ 63 - 2 + (2 ^ 63 - 2) > 2 ^ 63 - 1 ∧
    draw_weight_range [4, 1, 2 ^ 63 - 2 ^ 32 - 2] =
      Except.ok ((1, 2 ^ 63 - 1), []) :=
  ⟨by decide, by decide, by decide⟩

/-- A generator state about to emit a soft AND gadget of arity 2 on
objective 1 (soft table entry 1, `eqs = 0`). -/
def stC6 : GenSt :=
  { rng := [0, 1, 0, 0, 0, 1, 0, 3, 0, 0],
    seed := none, objs := 1,
    layers := [{ range := (0, 6), n_clauses := 5, soft := 0, unused := [] }],
    arity := [2], soft := [1], eqs := 0, ands := 1, xors3 := 0, xors4 := 0,
    n_soft_left := [1], weight_range := (1, 2), weight_sum := 0,
    state := LineType.AndCl 0, next_free_var := 6, buffer := [] }

/-- Claim C6 (code bug): the soft AND gadget from `stC6` (lhs `x1`, rhs
`{¬x0, x3}`, blocker `x6`) emits five clauses: the long clause, the two
rhs binary clauses, an additional binary clause `(¬x1 ∨ ¬x6)` over the
blocking literal (the drain range `1..cl.len()` includes the appended
blocker), and the soft unit — while `n_clauses` accounts only
`arity + 2 = 4` clauses for it. -/
theorem soft_and_emits_blocker_binary :
    (and_clauses stC6 0).map (fun r => r.1) =
      Except.ok
        [(none, [⟨1, false⟩, ⟨0, true⟩, ⟨3, false⟩, ⟨6, false⟩]),
         (none, [⟨1, true⟩, ⟨0, false⟩]),
         (none, [⟨1, true⟩, ⟨3, true⟩]),
         (none, [⟨1, true⟩, ⟨6, true⟩]),
         (some (0, 1), [⟨6, true⟩])] ∧
    n_clauses stC6 = 5 + 4 ∧
    (and_clauses stC6 0).map (fun r => r.1.length) = Except.ok 5 :=
  ⟨by decide, by decide, by decide⟩

/-- Claim C9: the generator's output stream is a function of the
configuration and the seeded random stream alone — two runs from the same
(config, tape) produce identical line sequences. -/
theorem generator_deterministic (cfg : InstConfig) (t1 t2 : Tape) (fuel : Nat)
    (h : t1 = t2) : genOutput cfg t1 fuel = genOutput cfg t2 fuel := by
  rw [h]

/-- Witness for claim C9 at a concrete configuration and tape. -/
theorem generator_deterministic_witness :
    tapeR = tapeR ∧ genOutput cfgR tapeR 64 = genOutput cfgR tapeR 64 :=
  ⟨rfl, generator_deterministic cfgR tapeR tapeR 64 rfl⟩

/-! ### No repeated variables in layer, equality and AND clauses -/

/-- Well-formedness of a generator state for variable freshness: every
layer's variable range lies below `next_free_var` (established by `init`,
which sets `next_free_var` to the end of the last layer, and preserved
since gadgets only increment it). -/
def wf_state (st : GenSt) : Bool :=
  st.layers.all fun l => decide (l.range.2 ≤ st.next_free_var)

theorem wf_state_le {st : GenSt} (h : wf_state st = true) :
    ∀ l ∈ st.layers, l.range.2 ≤ st.next_free_var := by
  intro l hl
  have := List.all_eq_true.mp h l hl
  exact of_decide_eq_true this

/-- `hasRepeatedVar` holds for the clause produced, if the call
succeeded. -/
def clauseOkNoRepeat (e : Except Unit (GCl × GenSt)) : Bool :=
  match e with
  | Except.error _ => true
  | Except.ok (c, _) => !hasRepeatedVar c.2

/-- As `clauseOkNoRepeat`, for a gadget's whole clause batch. -/
def clausesOkNoRepeat (e : Except Unit (List GCl × GenSt)) : Bool :=
  match e with
  | Except.error _ => true
  | Except.ok (cls, _) => cls.all fun c => !hasRepeatedVar c.2

theorem except_bind_ok {α β : Type} (a : α) (f : α → Except Unit β) :
    (Except.ok a >>= f) = f a := rfl

theorem except_bind_error {α β : Type} (e : Unit) (f : α → Except Unit β) :
    ((Except.error e : Except Unit α) >>= f) = Except.error e := rfl

theorem genRangeExcl_lt {lo hi v : Nat} {t t' : Tape}
    (h : genRangeExcl lo hi t = Except.ok (v, t')) : v < hi := by
  unfold genRangeExcl at h
  split at h
  · exact absurd h (by simp)
  · next hlt =>
    have hlo : lo < hi := Nat.lt_of_not_le (fun hc => hlt (by omega))
    obtain ⟨rfl, rfl⟩ : lo + (drawTape t).1 % (hi - lo) = v ∧ (drawTape t).2 = t' := by
      simpa using h
    have := Nat.mod_lt (drawTape t).1 (y := hi - lo) (by omega)
    omega

theorem genRangeExcl_lt_length {hi v : Nat} {t t' : Tape}
    (h : genRangeExcl 0 hi t = Except.ok (v, t')) : v < hi :=
  genRangeExcl_lt h

theorem getD_mem {l : List α} {i : Nat} (d : α) (h : i < l.length) :
    l.getD i d ∈ l := by
  rw [List.getD_eq_getElem l d h]
  exact List.getElem_mem h

theorem markGet_markSet_self (m : List Bool) (v : Nat) :
    markGet (markSet m v) v = true := by
  induction v generalizing m with
  | zero => cases m <;> simp [markSet, markGet]
  | succ v ih => cases m <;> simp [markSet, markGet, ih]

theorem markGet_markSet_ne (m : List Bool) {v w : Nat} (h : w ≠ v) :
    markGet (markSet m v) w = markGet m w := by
  induction v generalizing m w with
  | zero =>
    cases m <;> cases w <;> simp_all [markSet, markGet]
  | succ v ih =>
    cases m <;> cases w <;> simp_all [markSet, markGet]

theorem hasRepeatedVar_append {cl : GClause} {l : Lit}
    (h : hasRepeatedVar cl = false) (h2 : ∀ x ∈ cl, x.vidx ≠ l.vidx) :
    hasRepeatedVar (cl ++ [l]) = false := by
  induction cl with
  | nil => simp [hasRepeatedVar]
  | cons a rest ih =>
    simp only [hasRepeatedVar, Bool.or_eq_false_iff, List.any_eq_false] at h
    simp only [List.cons_append, hasRepeatedVar, Bool.or_eq_false_iff,
      List.any_eq_false]
    refine ⟨?_, ih h.2 (fun x hx => h2 x (List.mem_cons_of_mem a hx))⟩
    intro x hx
    rcases List.mem_append.mp hx with hx | hx
    · exact h.1 x hx
    · have hx' : x = l := by simpa using hx
      subst hx'
      have hne : a.vidx ≠ x.vidx := h2 a (List.mem_cons_self a rest)
      simp only [beq_iff_eq]
      exact fun hc => hne hc.symm

theorem fillLits_no_repeat :
    ∀ (fuel : Nat) (st : GenSt) (lidx len idx : Nat) (mark : List Bool) (cl : GClause)
      (cl' : GClause) (st' : GenSt),
      (∀ x ∈ cl, markGet mark x.vidx = true) →
      hasRepeatedVar cl = false →
      fillLits st lidx len idx mark cl fuel = Except.ok (cl', st') →
      hasRepeatedVar cl' = false := by
  intro fuel
  induction fuel with
  | zero =>
    intro st lidx len idx mark cl cl' st' hm hn h
    rw [fillLits] at h
    split at h
    · exact absurd h (by simp)
    · obtain ⟨rfl, rfl⟩ : cl = cl' ∧ st = st' := by simpa using h
      exact hn
  | succ fuel ih =>
    intro st lidx len idx mark cl cl' st' hm hn h
    rw [fillLits] at h
    split at h
    case isFalse =>
      obtain ⟨rfl, rfl⟩ : cl = cl' ∧ st = st' := by simpa using h
      exact hn
    case isTrue hlen =>
      rcases hwd : walkDown lidx st.rng with ⟨l, t⟩
      simp only [hwd] at h
      rcases hp : pick_lit st.layers l t with _ | ⟨lit, layers', t2⟩
      · rw [hp, except_bind_error] at h
        exact Except.noConfusion h
      · rw [hp, except_bind_ok] at h
        simp only [] at h
        by_cases hmark : markGet mark lit.vidx = true
        · rw [if_pos hmark] at h
          exact ih _ _ _ _ _ _ _ _ hm hn h
        · rw [if_neg hmark] at h
          have hmark' : markGet mark lit.vidx = false := by
            simpa using hmark
          refine ih _ _ _ _ _ _ _ _ ?_ ?_ h
          · intro x hx
            rcases List.mem_append.mp hx with hx | hx
            · by_cases hv : x.vidx = lit.vidx
              · rw [hv]
                exact markGet_markSet_self mark lit.vidx
              · rw [markGet_markSet_ne mark hv]
                exact hm x hx
            · have : x = lit := by simpa using hx
              subst this
              exact markGet_markSet_self mark x.vidx
          · refine hasRepeatedVar_append hn ?_
            intro x hx hc
            rw [← hc] at hmark'
            rw [hm x hx] at hmark'
            exact Bool.true_eq_false.mp hmark'

/-- Claim C4 (amended), part for layer clauses: `layer_clause` builds the
clause through the dense mark vector, so no produced layer clause repeats
a variable. -/
theorem layer_clause_no_repeat (st : GenSt) (lidx : Nat) :
    clauseOkNoRepeat (layer_clause st lidx) = true := by
  rcases h : layer_clause st lidx with _ | ⟨cl, st'⟩
  · simp [clauseOkNoRepeat]
  · simp only [clauseOkNoRepeat, Bool.not_eq_true']
    unfold layer_clause at h
    rcases hg : growLen 3 (st.layers.getD lidx default).range.2 st.rng with ⟨len, t⟩
    simp only [hg] at h
    rcases hw : layer_weight (st.withRng t) (st.layers.getD lidx default).soft with
      _ | ⟨wt, st2⟩
    · rw [hw, except_bind_error] at h
      exact Except.noConfusion h
    · rw [hw, except_bind_ok] at h
      simp only [] at h
      rcases hf : fillLits st2 lidx len 0 [] []
          (st2.rng.length + totalUnused st2.layers + len + 1) with _ | ⟨cl2, st3⟩
      · rw [hf, except_bind_error] at h
        exact Except.noConfusion h
      · rw [hf, except_bind_ok] at h
        simp only [Except.ok.injEq, Prod.mk.injEq] at h
        obtain ⟨hcl, hst⟩ := h
        rw [← hcl]
        exact fillLits_no_repeat _ _ _ _ _ _ _ _ _
          (by intro x hx; cases hx) (by simp [hasRepeatedVar]) hf

theorem wf_state_withRng (st : GenSt) (t : Tape) :
    wf_state (st.withRng t) = wf_state st := rfl

theorem hasRepeatedVar_cons_ne {a : Lit} {rest : List Lit}
    (h : hasRepeatedVar (a :: rest) = false) : ∀ r ∈ rest, r.vidx ≠ a.vidx := by
  intro r hr
  simp only [hasRepeatedVar, Bool.or_eq_false_iff, List.any_eq_false] at h
  have := h.1 r hr
  simpa using this

theorem rand_lit_lt {layers : List GLayer} {B : Nat} {lit : Lit} {t t' : Tape}
    (hB : ∀ l ∈ layers, l.range.2 ≤ B)
    (h : rand_lit layers t = Except.ok (lit, t')) : lit.vidx < B := by
  unfold rand_lit at h
  rcases h1 : genRangeExcl 0 layers.length t with _ | ⟨l, t1⟩
  · rw [h1, except_bind_error] at h
    exact Except.noConfusion h
  · rw [h1, except_bind_ok] at h
    simp only [] at h
    rcases h2 : genRangeExcl (layers.getD l default).range.1
        (layers.getD l default).range.2 t1 with _ | ⟨v, t2⟩
    · rw [h2, except_bind_error] at h
      exact Except.noConfusion h
    · rw [h2, except_bind_ok] at h
      simp only [Except.ok.injEq, Prod.mk.injEq] at h
      obtain ⟨hlit, _⟩ := h
      have hv : v < (layers.getD l default).range.2 := genRangeExcl_lt h2
      have hl : l < layers.length := genRangeExcl_lt h1
      have hmem := getD_mem (default : GLayer) hl
      have := hB _ hmem
      rw [← hlit]
      exact Nat.lt_of_lt_of_le hv this

theorem eq_draw_lt {st : GenSt} {v1 v2 : Nat} {t : Tape}
    (hw : wf_state st = true)
    (h : eq_draw st = Except.ok ((v1, v2), t)) :
    v1 < st.next_free_var ∧ v2 < st.next_free_var := by
  unfold eq_draw at h
  rcases h1 : genRangeExcl 0 st.layers.length st.rng with _ | ⟨l1, t1⟩
  · rw [h1, except_bind_error] at h
    exact Except.noConfusion h
  rw [h1, except_bind_ok] at h
  simp only [] at h
  rcases h2 : genRangeExcl 0 st.layers.length t1 with _ | ⟨l2, t2⟩
  · rw [h2, except_bind_error] at h
    exact Except.noConfusion h
  rw [h2, except_bind_ok] at h
  simp only [] at h
  rcases h3 : genRangeExcl (st.layers.getD l1 default).range.1
      (st.layers.getD l1 default).range.2 t2 with _ | ⟨w1, t3⟩
  · rw [h3, except_bind_error] at h
    exact Except.noConfusion h
  rw [h3, except_bind_ok] at h
  simp only [] at h
  rcases h4 : genRangeExcl (st.layers.getD l2 default).range.1
      (st.layers.getD l2 default).range.2 t3 with _ | ⟨w2, t4⟩
  · rw [h4, except_bind_error] at h
    exact Except.noConfusion h
  rw [h4, except_bind_ok] at h
  simp only [Except.ok.injEq, Prod.mk.injEq] at h
  obtain ⟨⟨hv1, hv2⟩, _⟩ := h
  have hb1 : w1 < (st.layers.getD l1 default).range.2 := genRangeExcl_lt h3
  have hb2 : w2 < (st.layers.getD l2 default).range.2 := genRangeExcl_lt h4
  have hm1 := getD_mem (default : GLayer) (genRangeExcl_lt h1)
  have hm2 := getD_mem (default : GLayer) (genRangeExcl_lt h2)
  constructor
  · rw [← hv1]
    exact Nat.lt_of_lt_of_le hb1 (wf_state_le hw _ hm1)
  · rw [← hv2]
    exact Nat.lt_of_lt_of_le hb2 (wf_state_le hw _ hm2)

theorem eq_finish_no_repeat (st : GenSt) (idx v1 v2 : Nat) (t : Tape)
    (h1 : v1 < st.next_free_var) (h2 : v2 < st.next_free_var) (hne : v1 ≠ v2) :
    clausesOkNoRepeat (eq_finish st idx v1 v2 t) = true := by
  have e1 : v1 ≠ st.next_free_var := Nat.ne_of_lt h1
  have e2 : v2 ≠ st.next_free_var := Nat.ne_of_lt h2
  unfold eq_finish
  rcases hb1 : genBool t with ⟨b1, t1⟩
  simp only [hb1]
  rcases hb2 : genBool t1 with ⟨b2, t2⟩
  simp only [hb2]
  by_cases hs : (st.withRng t2).soft.getD idx 0 > 0
  · simp only [if_pos hs]
    rcases hwt : weight (((st.withRng t2)).withNfv ((st.withRng t2).next_free_var + 1))
        ((st.withRng t2).soft.getD idx 0 - 1) with _ | ⟨w, st3⟩
    · simp [except_bind_error, clausesOkNoRepeat]
    · simp only [except_bind_ok]
      simp only [clausesOkNoRepeat]
      simp [hasRepeatedVar, Lit.negate, GenSt.withRng, hne, e1, e2,
        Ne.symm hne, Ne.symm e1, Ne.symm e2]
  · simp only [if_neg hs]
    simp only [clausesOkNoRepeat]
    simp [hasRepeatedVar, Lit.negate, hne, Ne.symm hne]

theorem eq_clauses_no_repeat (fuel : Nat) :
    ∀ (st : GenSt) (idx : Nat), wf_state st = true →
      clausesOkNoRepeat (eq_clauses st idx fuel) = true := by
  induction fuel with
  | zero =>
    intro st idx hw
    simp [eq_clauses, clausesOkNoRepeat]
  | succ fuel ih =>
    intro st idx hw
    rw [eq_clauses]
    rcases hd : eq_draw st with _ | ⟨⟨v1, v2⟩, t⟩
    · simp [except_bind_error, clausesOkNoRepeat]
    · simp only [except_bind_ok]
      by_cases hv : v1 = v2
      · rw [if_pos hv]
        exact ih _ _ (by rw [wf_state_withRng]; exact hw)
      · rw [if_neg hv]
        obtain ⟨hb1, hb2⟩ := eq_draw_lt hw hd
        exact eq_finish_no_repeat st idx v1 v2 t hb1 hb2 hv

theorem and_rhs_inv :
    ∀ (fuel : Nat) (layers : List GLayer) (B arity lidx : Nat) (mark : List Bool)
      (cl cl' : GClause) (t t' : Tape),
      (∀ l ∈ layers, l.range.2 ≤ B) →
      (∀ x ∈ cl, markGet mark x.vidx = true) →
      hasRepeatedVar cl = false →
      (∀ x ∈ cl, x.vidx < B) →
      and_rhs layers arity lidx mark cl t fuel = Except.ok (cl', t') →
      hasRepeatedVar cl' = false ∧ (∀ x ∈ cl', x.vidx < B) ∧ ∃ suf, cl' = cl ++ suf := by
  intro fuel
  induction fuel with
  | zero =>
    intro layers B arity lidx mark cl cl' t t' hB hm hn hb h
    rw [and_rhs] at h
    split at h
    · exact absurd h (by simp)
    · obtain ⟨rfl, rfl⟩ : cl = cl' ∧ t = t' := by simpa using h
      exact ⟨hn, hb, [], by simp⟩
  | succ fuel ih =>
    intro layers B arity lidx mark cl cl' t t' hB hm hn hb h
    rw [and_rhs] at h
    split at h
    case isFalse =>
      obtain ⟨rfl, rfl⟩ : cl = cl' ∧ t = t' := by simpa using h
      exact ⟨hn, hb, [], by simp⟩
    case isTrue hlt =>
      rcases hr : rand_lit layers t with _ | ⟨rhs, t2⟩
      · rw [hr, except_bind_error] at h
        exact Except.noConfusion h
      · rw [hr, except_bind_ok] at h
        simp only [] at h
        by_cases hmark : markGet mark rhs.vidx = true
        · rw [if_pos hmark] at h
          exact ih _ _ _ _ _ _ _ _ _ hB hm hn hb h
        · rw [if_neg hmark] at h
          have hmark' : markGet mark rhs.vidx = false := by simpa using hmark
          have hrb : rhs.vidx < B := rand_lit_lt hB hr
          obtain ⟨r1, r2, suf, hsuf⟩ := ih _ _ _ _ _ _ _ _ _ hB
            (by
              intro x hx
              rcases List.mem_append.mp hx with hx | hx
              · by_cases hv : x.vidx = rhs.vidx
                · rw [hv]
                  exact markGet_markSet_self mark rhs.vidx
                · rw [markGet_markSet_ne mark hv]
                  exact hm x hx
              · have hx' : x = rhs := by simpa using hx
                subst hx'
                exact markGet_markSet_self mark x.vidx)
            (by
              refine hasRepeatedVar_append hn ?_
              intro x hx hc
              rw [← hc] at hmark'
              rw [hm x hx] at hmark'
              exact Bool.true_eq_false.mp hmark')
            (by
              intro x hx
              rcases List.mem_append.mp hx with hx | hx
              · exact hb x hx
              · have hx' : x = rhs := by simpa using hx
                subst hx'
                exact hrb)
            h
          exact ⟨r1, r2, [rhs] ++ suf, by rw [hsuf, List.append_assoc]⟩

theorem and_clauses_no_repeat (st : GenSt) (idx : Nat) (hw : wf_state st = true) :
    clausesOkNoRepeat (and_clauses st idx) = true := by
  unfold and_clauses
  rcases hl : rand_lit st.layers st.rng with _ | ⟨lhs, t⟩
  · simp [except_bind_error, clausesOkNoRepeat]
  simp only [except_bind_ok]
  rcases hr : and_rhs st.layers (st.arity.getD idx 0) 0 (markSet [] lhs.vidx) [lhs] t
      (t.length + st.arity.getD idx 0 + 1) with _ | ⟨cl, t2⟩
  · simp [except_bind_error, clausesOkNoRepeat]
  simp only [except_bind_ok]
  have hlhs : lhs.vidx < st.next_free_var := rand_lit_lt (wf_state_le hw) hl
  obtain ⟨hnr, hbound, suf, hsuf⟩ := and_rhs_inv _ _ st.next_free_var _ _ _ _ _ _ _
    (wf_state_le hw)
    (by
      intro x hx
      have hx' : x = lhs := by simpa using hx
      subst hx'
      exact markGet_markSet_self [] x.vidx)
    (by simp [hasRepeatedVar])
    (by
      intro x hx
      have hx' : x = lhs := by simpa using hx
      subst hx'
      exact hlhs)
    hr
  have hsufne : ∀ r ∈ suf, r.vidx ≠ lhs.vidx := by
    intro r hr2
    have : cl = lhs :: suf := by simpa using hsuf
    exact hasRepeatedVar_cons_ne (this ▸ hnr) r hr2
  have hcl : cl = lhs :: suf := by simpa using hsuf
  by_cases hs : st.soft.getD (st.eqs + idx) 0 > 0
  · rw [if_pos hs]
    rcases hwt : weight ((st.withRng t2).withNfv (st.next_free_var + 1))
        (st.soft.getD (st.eqs + idx) 0 - 1) with _ | ⟨w, st3⟩
    · simp [except_bind_error, clausesOkNoRepeat]
    · simp only [except_bind_ok]
      simp only [clausesOkNoRepeat, List.all_cons, List.all_append, List.all_nil,
        Bool.and_true, Bool.and_eq_true, Bool.not_eq_true', List.all_eq_true]
      refine ⟨?_, ?_, ?_⟩
      · refine hasRepeatedVar_append hnr ?_
        intro x hx
        exact Nat.ne_of_lt (hbound x hx)
      · intro c hc
        rw [List.mem_map] at hc
        obtain ⟨r, hrmem, hrc⟩ := hc
        rw [← hrc]
        have hrtail : r ∈ suf ++ [(⟨st.next_free_var, false⟩ : Lit)] := by
          have : (cl ++ [(⟨st.next_free_var, false⟩ : Lit)]).tail =
              suf ++ [(⟨st.next_free_var, false⟩ : Lit)] := by
            rw [hcl]
            simp
          rw [this] at hrmem
          exact hrmem
        have hrne : r.vidx ≠ lhs.vidx := by
          rcases List.mem_append.mp hrtail with hx | hx
          · exact hsufne r hx
          · have hx' : r = ⟨st.next_free_var, false⟩ := by simpa using hx
            subst hx'
            exact fun hc => absurd hc.symm (Nat.ne_of_lt hlhs)
        simp [hasRepeatedVar, Lit.negate, hrne]
      · simp [hasRepeatedVar]
  · rw [if_neg hs]
    simp only [clausesOkNoRepeat, List.all_cons, Bool.and_eq_true, Bool.not_eq_true',
      List.all_eq_true]
    refine ⟨hnr, ?_⟩
    intro c hc
    rw [List.mem_map] at hc
    obtain ⟨r, hrmem, hrc⟩ := hc
    rw [← hrc]
    have hrne : r.vidx ≠ lhs.vidx := by
      have : cl.tail = suf := by rw [hcl]; rfl
      rw [this] at hrmem
      exact hsufne r hrmem
    simp [hasRepeatedVar, Lit.negate, hrne]

set_option maxHeartbeats 1000000 in
/-- Claim C4 (amended): every clause the generator emits for layers,
equality gadgets and AND gadgets contains at most one literal of any
variable (the XOR3/XOR4 gadgets draw literals whose variables may
coincide, see the counterexample).  `wf_state` says every layer variable
lies below `next_free_var`, which `init` establishes and the gadget
steps preserve. -/
theorem layer_eq_and_clauses_no_repeated_vars (st : GenSt)
    (lidx eidx aidx fuel : Nat) (hw : wf_state st = true) :
    clauseOkNoRepeat (layer_clause st lidx) = true ∧
    clausesOkNoRepeat (eq_clauses st eidx fuel) = true ∧
    clausesOkNoRepeat (and_clauses st aidx) = true :=
  ⟨layer_clause_no_repeat st lidx, eq_clauses_no_repeat fuel st eidx hw,
   and_clauses_no_repeat st aidx hw⟩

/-- A small well-formed state exercising the three clause constructors of
the amended claim C4: one layer [0,6) with an exhausted unused pool, one
equality gadget and one AND gadget of arity 2, both soft on objective
1. -/
def stW : GenSt :=
  { rng := [0, 1, 2, 3, 0, 1, 2, 3, 0, 1, 2, 3],
    seed := none, objs := 1,
    layers := [{ range := (0, 6), n_clauses := 5, soft := 0, unused := [] }],
    arity := [2], soft := [1, 1], eqs := 1, ands := 1, xors3 := 0, xors4 := 0,
    n_soft_left := [5], weight_range := (1, 2), weight_sum := 0,
    state := LineType.Header 0, next_free_var := 6, buffer := [] }

/-- Witness for the amended claim C4 at the concrete state `stW`. -/
theorem layer_eq_and_clauses_no_repeated_vars_witness :
    wf_state stW = true ∧
    (clauseOkNoRepeat (layer_clause stW 0) = true ∧
     clausesOkNoRepeat (eq_clauses stW 0 5) = true ∧
     clausesOkNoRepeat (and_clauses stW 0) = true) :=
  ⟨by decide, layer_eq_and_clauses_no_repeated_vars stW 0 0 0 5 (by decide)⟩

/-! ### Layers are never soft -/

/-- Well-formed generator configuration: at least one layer, non-empty
draw ranges. -/
def wf_config (cfg : InstConfig) : Bool :=
  decide (1 ≤ cfg.min_layers) && decide (cfg.min_layers ≤ cfg.max_layers) &&
    decide (cfg.min_objs ≤ cfg.max_objs)

theorem genRangeIncl_ok (lo hi : Nat) (t : Tape) (h : lo ≤ hi) :
    ∃ v t', genRangeIncl lo hi t = Except.ok (v, t') ∧ lo ≤ v ∧ v ≤ hi := by
  unfold genRangeIncl
  rw [if_neg (by omega)]
  refine ⟨lo + (drawTape t).1 % (hi + 1 - lo), (drawTape t).2, rfl, Nat.le_add_right _ _, ?_⟩
  have := Nat.mod_lt (drawTape t).1 (y := hi + 1 - lo) (by omega)
  omega

theorem genRangeExcl_ok (lo hi : Nat) (t : Tape) (h : lo < hi) :
    ∃ v t', genRangeExcl lo hi t = Except.ok (v, t') := by
  unfold genRangeExcl
  rw [if_neg (by omega)]
  exact ⟨_, _, rfl⟩

theorem sample_clauses_le (sample w : Nat) (h : sample ≤ 250) :
    sample * w / 100 ≤ 4 * w := by
  have h1 : sample * w ≤ 400 * w := Nat.mul_le_mul_right w (by omega)
  calc sample * w / 100 ≤ 400 * w / 100 := Nat.div_le_div_right h1
    _ = 4 * w := by
        rw [show 400 * w = 100 * (4 * w) by ring]
        exact Nat.mul_div_cancel_left _ (by norm_num)

theorem widthLo_ge (lt : LayerType) : 5 ≤ widthLo lt := by
  cases lt <;> simp [widthLo]

theorem width_bounds_spec (lt : LayerType) :
    widthLo lt = (width_bounds lt).1 ∧ (width_bounds lt).1 ≤ (width_bounds lt).2 := by
  cases lt <;> simp [widthLo, width_bounds]

/-- The heart of claim C10: the per-layer construction always succeeds and
never flags the layer soft, because the drawn clause count
`sample * width_plus_last / 100` with `sample ≤ 250` can never exceed
`4 * width_plus_last`. -/
theorem mkLayer_ok (lt : LayerType) (max_width : Nat) (prev : Option GLayer) (t : Tape)
    (h : widthLo lt ≤ max_width) :
    ∃ l t', mkLayer lt max_width 0 prev t = Except.ok (l, t') ∧
      l.soft = 0 ∧ 6 ≤ layerLen l := by
  unfold mkLayer
  obtain ⟨width, t1, e1, hw1, _⟩ := genRangeIncl_ok (widthLo lt) max_width t h
  rw [e1]
  simp only [except_bind_ok]
  obtain ⟨sample, t2, e2, _, hs2⟩ := genRangeIncl_ok 100 250 t1 (by norm_num)
  rw [e2]
  simp only [except_bind_ok]
  have hwidth : 5 ≤ width := Nat.le_trans (widthLo_ge lt) hw1
  cases prev with
  | none =>
    simp only []
    rw [if_neg (by
      have := sample_clauses_le sample width hs2
      omega)]
    exact ⟨_, _, rfl, rfl, by simp [layerLen]; omega⟩
  | some p =>
    simp only []
    rw [if_neg (by
      have := sample_clauses_le sample (width + p.range.2 - p.range.1) hs2
      omega)]
    exact ⟨_, _, rfl, rfl, by simp [layerLen]; omega⟩

theorem mkLayers_ok (lt : LayerType) (max_width : Nat) (h : widthLo lt ≤ max_width) :
    ∀ (n : Nat) (prev : Option GLayer) (t : Tape),
      ∃ ls t', mkLayers lt max_width 0 n prev t = Except.ok (ls, t') ∧
        ls.length = n ∧ ∀ l ∈ ls, l.soft = 0 ∧ 6 ≤ layerLen l := by
  intro n
  induction n with
  | zero =>
    intro prev t
    exact ⟨[], t, rfl, rfl, by simp⟩
  | succ n ih =>
    intro prev t
    obtain ⟨l, t1, e1, hsoft, hlen⟩ := mkLayer_ok lt max_width prev t h
    obtain ⟨ls, t2, e2, hn, hall⟩ := ih (some l) t1
    refine ⟨l :: ls, t2, ?_, by simp [hn], ?_⟩
    · unfold mkLayers
      rw [e1]
      simp only [except_bind_ok]
      rw [e2]
      simp only [except_bind_ok]
    · intro x hx
      rcases List.mem_cons.mp hx with rfl | hx
      · exact ⟨hsoft, hlen⟩
      · exact hall x hx

theorem gadget_count_ok (t : Tape) (hi : Nat) :
    ∃ v t', gadget_count t hi = Except.ok (v, t') := by
  unfold gadget_count
  rcases hb : genBool t with ⟨b, t1⟩
  simp only []
  cases b
  · exact ⟨0, t1, by rw [if_neg (by simp)]⟩
  · obtain ⟨v, t2, e, _, _⟩ := genRangeIncl_ok 0 hi t1 (Nat.zero_le hi)
    exact ⟨v, t2, by rw [if_pos rfl]; exact e⟩

theorem draw_weight_range_ok (t : Tape) :
    ∃ r t', draw_weight_range t = Except.ok (r, t') := by
  unfold draw_weight_range
  obtain ⟨v, t1, e1, hv1, hv5⟩ := genRangeIncl_ok 1 5 t (by norm_num)
  rw [e1]
  simp only [except_bind_ok]
  match v with
  | 1 => exact ⟨_, _, rfl⟩
  | 2 =>
    obtain ⟨x, t2, e2, _, _⟩ := genRangeIncl_ok 3 33 t1 (by norm_num)
    rw [e2]
    simp only [except_bind_ok]
    exact ⟨_, _, rfl⟩
  | 3 =>
    obtain ⟨x, t2, e2, _, _⟩ := genRangeIncl_ok 34 257 t1 (by norm_num)
    rw [e2]
    simp only [except_bind_ok]
    exact ⟨_, _, rfl⟩
  | 4 =>
    obtain ⟨x, t2, e2, _, _⟩ := genRangeIncl_ok 258 65536 t1 (by norm_num)
    rw [e2]
    simp only [except_bind_ok]
    exact ⟨_, _, rfl⟩
  | 0 =>
    rcases hb : genBool t1 with ⟨b, t2⟩
    simp only []
    cases b
    · obtain ⟨x, t3, e3, _, _⟩ := genRangeIncl_ok 65537 (2 ^ 32 + 1) t2 (by norm_num)
      rw [if_neg (by simp), e3]
      simp only [except_bind_ok]
      exact ⟨_, _, rfl⟩
    · obtain ⟨x, t3, e3⟩ := genRangeExcl_ok (2 ^ 32 + 1) (2 ^ 63) t2 (by norm_num)
      rw [if_pos rfl, e3]
      simp only [except_bind_ok]
      exact ⟨_, _, rfl⟩
  | n + 5 =>
    rcases hb : genBool t1 with ⟨b, t2⟩
    simp only []
    cases b
    · obtain ⟨x, t3, e3, _, _⟩ := genRangeIncl_ok 65537 (2 ^ 32 + 1) t2 (by norm_num)
      rw [if_neg (by simp), e3]
      simp only [except_bind_ok]
      exact ⟨_, _, rfl⟩
    · obtain ⟨x, t3, e3⟩ := genRangeExcl_ok (2 ^ 32 + 1) (2 ^ 63) t2 (by norm_num)
      rw [if_pos rfl, e3]
      simp only [except_bind_ok]
      exact ⟨_, _, rfl⟩

theorem arity_wpl_ok (ls : List GLayer) (hne : ls ≠ [])
    (h6 : ∀ l ∈ ls, 6 ≤ layerLen l) :
    ∃ w, arity_wpl ls = Except.ok w ∧ 6 ≤ w := by
  unfold arity_wpl
  by_cases hlen : 1 < ls.length
  · rw [if_pos hlen]
    have h1 : ls.length - 1 < ls.length := by omega
    have h2 : ls.length - 2 < ls.length := by omega
    have m1 := h6 _ (getD_mem (default : GLayer) h1)
    have m2 := h6 _ (getD_mem (default : GLayer) h2)
    exact ⟨_, rfl, by omega⟩
  · rw [if_neg hlen]
    cases ls with
    | nil => exact absurd rfl hne
    | cons l rest =>
      exact ⟨layerLen l, rfl, h6 l (List.mem_cons_self l rest)⟩

theorem mkArities_ok (maxA : Nat) (h : 2 ≤ maxA) :
    ∀ (n : Nat) (t : Tape), ∃ r t', mkArities n maxA t = Except.ok (r, t') := by
  intro n
  induction n with
  | zero => intro t; exact ⟨[], t, rfl⟩
  | succ n ih =>
    intro t
    obtain ⟨a, t1, e1, _, _⟩ := genRangeIncl_ok 2 maxA t h
    obtain ⟨r, t2, e2⟩ := ih t1
    refine ⟨a :: r, t2, ?_⟩
    unfold mkArities
    rw [e1]
    simp only [except_bind_ok]
    rw [e2]
    simp only [except_bind_ok]

theorem mkSoftTable_ok (objs : Nat) (h : 1 ≤ objs) (all_soft : Bool) :
    ∀ (n : Nat) (t : Tape), ∃ r t', mkSoftTable objs all_soft n t = Except.ok (r, t') := by
  intro n
  induction n with
  | zero => intro t; exact ⟨[], t, rfl⟩
  | succ n ih =>
    intro t
    unfold mkSoftTable
    cases all_soft
    · rcases hb : genBool t with ⟨b, t1⟩
      simp only [Bool.false_eq_true, if_false, hb]
      cases b
      · obtain ⟨r, t2, e2⟩ := ih t1
        rw [if_neg (by simp)]
        simp only [except_bind_ok]
        rw [e2]
        simp only [except_bind_ok]
        exact ⟨_, _, rfl⟩
      · obtain ⟨s, t2, e2, _, _⟩ := genRangeIncl_ok 1 objs t1 h
        rw [if_pos rfl, e2]
        simp only [except_bind_ok]
        obtain ⟨r, t3, e3⟩ := ih t2
        rw [e3]
        simp only [except_bind_ok]
        exact ⟨_, _, rfl⟩
    · obtain ⟨s, t1, e1, _, _⟩ := genRangeIncl_ok 1 objs t h
      simp only [if_true]
      rw [e1]
      simp only [except_bind_ok]
      obtain ⟨r, t2, e2⟩ := ih t1
      rw [e2]
      simp only [except_bind_ok]
      exact ⟨_, _, rfl⟩

theorem lastLayerEnd_ok : ∀ (ls : List GLayer), ls ≠ [] →
    ∃ e, lastLayerEnd ls = Except.ok e := by
  intro ls
  induction ls with
  | nil => intro h; exact absurd rfl h
  | cons l rest ih =>
    intro _
    cases rest with
    | nil => exact ⟨l.range.2, rfl⟩
    | cons l2 rest2 =>
      obtain ⟨e, he⟩ := ih (by simp)
      exact ⟨e, he⟩

set_option maxHeartbeats 1000000 in
/-- Claim C10: for every well-formed configuration and every tape,
initialization succeeds (in particular the soft-layer branch, which would
sample an objective index from the then-empty range `1..=0`, is never
reached) and no layer is flagged soft — every layer clause is hard. -/
theorem init_layers_never_soft (cfg : InstConfig) (tape : Tape)
    (h : wf_config cfg = true) :
    (init cfg tape).map (fun st => st.layers.all fun l => l.soft == 0) =
      Except.ok true := by
  have hcfg : 1 ≤ cfg.min_layers ∧ cfg.min_layers ≤ cfg.max_layers ∧
      cfg.min_objs ≤ cfg.max_objs := by
    simp only [wf_config, Bool.and_eq_true, decide_eq_true_eq] at h
    exact ⟨h.1.1, h.1.2, h.2⟩
  obtain ⟨hwb, hwb2⟩ := width_bounds_spec cfg.layer_type
  unfold init
  rcases hb : width_bounds cfg.layer_type with ⟨mwLo, mwHi⟩
  simp only [hb]
  obtain ⟨max_width, t1, e1, hmw1, _⟩ := genRangeIncl_ok mwLo mwHi tape
    (by rw [hb] at hwb2; exact hwb2)
  rw [e1]
  simp only [except_bind_ok]
  obtain ⟨nLayers, t2, e2, hnl1, _⟩ :=
    genRangeIncl_ok cfg.min_layers cfg.max_layers t1 hcfg.2.1
  rw [e2]
  simp only [except_bind_ok]
  have hwlo : widthLo cfg.layer_type ≤ max_width := by
    rw [hwb, hb]
    exact hmw1
  obtain ⟨layers, t3, e3, hlen, hall⟩ :=
    mkLayers_ok cfg.layer_type max_width hwlo nLayers none t2
  rw [e3]
  simp only [except_bind_ok]
  obtain ⟨eqs, t4, e4⟩ := gadget_count_ok t3 31
  rw [e4]
  simp only [except_bind_ok]
  obtain ⟨ands, t5, e5⟩ := gadget_count_ok t4 31
  rw [e5]
  simp only [except_bind_ok]
  obtain ⟨xors3, t6, e6⟩ := gadget_count_ok t5 16
  rw [e6]
  simp only [except_bind_ok]
  obtain ⟨xors4, t7, e7⟩ := gadget_count_ok t6 12
  rw [e7]
  simp only [except_bind_ok]
  obtain ⟨objs, t8, e8, _, _⟩ := genRangeIncl_ok cfg.min_objs cfg.max_objs t7 hcfg.2.2
  rw [e8]
  simp only [except_bind_ok]
  obtain ⟨wr, t9, e9⟩ := draw_weight_range_ok t8
  rw [e9]
  simp only [except_bind_ok]
  have hlne : layers ≠ [] := by
    intro hc
    rw [hc] at hlen
    simp at hlen
    omega
  obtain ⟨wpl, ewpl, hwpl⟩ := arity_wpl_ok layers hlne (fun l hl => (hall l hl).2)
  rw [ewpl]
  simp only [except_bind_ok]
  obtain ⟨arity, t10, e10⟩ := mkArities_ok (min MAX_CL_LEN (wpl / 2))
    (by
      refine Nat.le_min.mpr ⟨by norm_num [MAX_CL_LEN], ?_⟩
      omega)
    ands t9
  rw [e10]
  simp only [except_bind_ok]
  by_cases hobjs : objs > 0
  · rw [if_pos hobjs]
    rcases hbb : genBool t10 with ⟨all_soft, t11⟩
    simp only []
    obtain ⟨soft, t12, e12⟩ := mkSoftTable_ok objs hobjs all_soft
      (ands + eqs + xors3 + xors4) t11
    rw [e12]
    simp only [except_bind_ok]
    obtain ⟨nfv, enfv⟩ := lastLayerEnd_ok layers hlne
    rw [enfv]
    show (Except.ok (layers.all fun l => l.soft == 0) : Except Unit Bool) = Except.ok true
    have hall2 : (layers.all fun l => l.soft == 0) = true := by
      rw [List.all_eq_true]
      intro l hl
      exact beq_iff_eq.mpr (hall l hl).1
    rw [hall2]
  · rw [if_neg hobjs]
    obtain ⟨nfv, enfv⟩ := lastLayerEnd_ok layers hlne
    rw [enfv]
    show (Except.ok (layers.all fun l => l.soft == 0) : Except Unit Bool) = Except.ok true
    have hall2 : (layers.all fun l => l.soft == 0) = true := by
      rw [List.all_eq_true]
      intro l hl
      exact beq_iff_eq.mpr (hall l hl).1
    rw [hall2]

/-- Witness for claim C10 at the reference configuration and tape. -/
theorem init_layers_never_soft_witness :
    wf_config cfgR = true ∧
    (init cfgR tapeR).map (fun st => st.layers.all fun l => l.soft == 0) =
      Except.ok true :=
  ⟨by decide, init_layers_never_soft cfgR tapeR (by decide)⟩

end Fazer
